import Mathlib

/-!
Verification of the `aws-resource-notifier` Lambda handlers
(`src/lambda/resource_deletion_notifier.py` and
`src/lambda/resource_deletion_notifier_global.py`).

The event envelopes the handlers receive are JSON documents, modelled by
the inductive `JVal`.  Python operations on these documents
(`dict.get`, `in`, indexing, slicing, truthiness, f-string formatting)
are modelled by small total or `Except`-valued functions whose error
case stands for the Python exception the operation would raise; a
`lambda_handler`'s top-level `except Exception` catches every such
error.  The boto3 tag-lookup clients and the Secrets Manager /
webhook collaborators are external services (spec section 2); they
are modelled as oracle parameters (`AwsClients`, the `secret` and
`deliver` fields of the environments) and the handlers additionally
return the ordered list of collaborator calls they made.
-/

/-- A JSON value, as the Lambda event envelopes are JSON documents.
`null` is Python `None`; numeric values are modelled as integers
(the envelope fields the handlers read are strings, objects and lists). -/
inductive JVal where
| null : JVal
| b (x : Bool) : JVal
| i (n : Int) : JVal
| s (x : String) : JVal
| arr (xs : List JVal) : JVal
| obj (kvs : List (String × JVal)) : JVal

/-- Python `==` between a JSON value and a string literal (every
comparison in the two handlers compares against a string literal;
values of any other type compare unequal to a string). -/
def JVal.eqStr : JVal → String → Bool
| .s x, y => x == y
| _, _ => false

/-- Python truthiness of a JSON value (`if x:`). -/
def JVal.truthy : JVal → Bool
| .null => false
| .b x => x
| .i n => n != 0
| .s x => x ≠ ""
| .arr xs => !xs.isEmpty
| .obj kvs => !kvs.isEmpty

/-- First binding of key `k` in a JSON object's entry list. -/
def lookupJ (kvs : List (String × JVal)) (k : String) : Option JVal :=
  (kvs.find? (fun p => p.1 == k)).map (fun p => p.2)

/-- Python `container.get(k, d)`: the default when the key is absent,
an `AttributeError` when the receiver is not a dict. -/
def dictGetD (j : JVal) (k : String) (d : JVal) : Except String JVal :=
  match j with
  | .obj kvs => .ok ((lookupJ kvs k).getD d)
  | _ => .error "AttributeError"

/-- Python `container.get(k)` (default `None`). -/
def dictGet (j : JVal) (k : String) : Except String JVal :=
  dictGetD j k .null

/-- Python `container[k]` for a string key: `KeyError` when absent,
`TypeError` when the receiver is not a dict. -/
def pyGetItem (j : JVal) (k : String) : Except String JVal :=
  match j with
  | .obj kvs =>
    match lookupJ kvs k with
    | some v => .ok v
    | none => .error "KeyError"
  | _ => .error "TypeError"

/-- Decidable substring test (does `needle` occur inside `hay`?). -/
def strContainsSub (hay needle : String) : Bool :=
  (List.range (hay.toList.length + 1)).any
    (fun i => ((hay.toList.drop i).take needle.toList.length) = needle.toList)

/-- Python `k in container` for a string `k`: key membership on dicts,
substring on strings, element membership on lists, `TypeError` otherwise. -/
def pyContains (j : JVal) (k : String) : Except String Bool :=
  match j with
  | .obj kvs => .ok (kvs.any (fun p => p.1 == k))
  | .s x => .ok (strContainsSub x k)
  | .arr xs => .ok (xs.any (fun v => JVal.eqStr v k))
  | _ => .error "TypeError"

/-- Python `x[0]`: first element of a list, first character of a
(non-empty) string, `KeyError`/`TypeError` otherwise. -/
def pyIndex0 : JVal → Except String JVal
| .arr (x :: _) => .ok x
| .arr [] => .error "IndexError"
| .s x => if x.toList.isEmpty then .error "IndexError" else .ok (.s (String.mk (x.toList.take 1)))
| .obj _ => .error "KeyError"
| _ => .error "TypeError"

/-- Python `x[:n]`: prefix of a string or list, `TypeError` (not
subscriptable) on `None` and the other values. -/
def pySlice (j : JVal) (n : Nat) : Except String JVal :=
  match j with
  | .s x => .ok (.s (String.mk (x.toList.take n)))
  | .arr xs => .ok (.arr (xs.take n))
  | _ => .error "TypeError"

mutual

/-- Python `repr` of a JSON value (used by `str` on containers). -/
def pyRepr : JVal → String
| .null => "None"
| .b true => "True"
| .b false => "False"
| .i n => toString n
| .s x => "\x27" ++ x ++ "\x27"
| .arr xs => "[" ++ pyReprArr xs ++ "]"
| .obj kvs => "\x7b" ++ pyReprObj kvs ++ "\x7d"

/-- Comma-separated reprs of array elements. -/
def pyReprArr : List JVal → String
| [] => ""
| [x] => pyRepr x
| x :: xs => pyRepr x ++ ", " ++ pyReprArr xs

/-- Comma-separated reprs of object entries. -/
def pyReprObj : List (String × JVal) → String
| [] => ""
| [(k, v)] => "\x27" ++ k ++ "\x27: " ++ pyRepr v
| (k, v) :: kvs => "\x27" ++ k ++ "\x27: " ++ pyRepr v ++ ", " ++ pyReprObj kvs

end

/-- Python `str` of a JSON value, as an f-string interpolation renders it. -/
def pyStr : JVal → String
| .s x => x
| v => pyRepr v

/-- Concatenation of the pieces of an f-string (literal chunks and
rendered interpolations, in order). -/
def concatAll (l : List String) : String :=
  l.foldr (fun a b => a ++ b) ""

/-- Python `s.startswith(p)`. -/
def pyStartsW (s p : String) : Bool :=
  p.toList.isPrefixOf s.toList

/-- Worker for Python `str.split(sep)` on character lists: scan left to
right, cutting at each non-overlapping occurrence of the (non-empty)
separator `s0 :: srest`. The fuel argument, seeded with more fuel than
characters, only makes the recursion structural. -/
def splitOnChF (s0 : Char) (srest : List Char) : Nat → List Char → List (List Char)
| 0, cs => [cs]
| _ + 1, [] => [[]]
| f + 1, c :: cs =>
  if (s0 :: srest).isPrefixOf (c :: cs) then
    [] :: splitOnChF s0 srest f (cs.drop srest.length)
  else
    match splitOnChF s0 srest f cs with
    | r :: rs => (c :: r) :: rs
    | [] => [[c]]

/-- Python `s.split(sep)` for a non-empty separator. -/
def pySplit (s sep : String) : List String :=
  match sep.toList with
  | [] => [s]
  | s0 :: srest => (splitOnChF s0 srest (s.toList.length + 1) s.toList).map String.mk

example : pySplit "/hostedzone/Z123" "/hostedzone/" = ["", "Z123"] := by rfl
example : pySplit "arn:aws:elasticloadbalancing:eu-west-1:123:loadbalancer/app/my-lb/abc" "/"
    = ["arn:aws:elasticloadbalancing:eu-west-1:123:loadbalancer", "app", "my-lb", "abc"] := by rfl
example : pyStartsW "/hostedzone/Z123" "/hostedzone/" = true := by rfl

example : pyStr (.obj [("Env", .s "prod"), ("n", .i 3)]) = "\x7b\x27Env\x27: \x27prod\x27, \x27n\x27: 3\x7d" := by
  simp only [pyStr, pyRepr, pyReprObj]
  rfl
example : JVal.truthy (.arr []) = false := by rfl
example : pyContains (.s "xeventSourcey") "eventSource" = .ok true := by rfl

/-- Numeric value of a list of decimal digit characters. -/
def digitsVal (cs : List Char) : Nat :=
  cs.foldl (fun a c => a * 10 + (c.toNat - 48)) 0

/-- One one-or-two-digit `strptime` field followed by a literal
delimiter, with CPython's regex alternation semantics: a two-digit
match must have its value in `[lo2, hi2]`; otherwise a single digit in
`[lo1, hi1]` is accepted when the delimiter follows immediately (the
delimiters are never digits, so no further backtracking exists). -/
def parseField (lo2 hi2 lo1 hi1 : Nat) (delim : Char) : List Char → Option (Nat × List Char)
| a :: b :: rest =>
  if a.isDigit then
    if b.isDigit then
      let v := digitsVal [a, b]
      if lo2 ≤ v && v ≤ hi2 then
        match rest with
        | c :: rest2 => if c = delim then some (v, rest2) else none
        | [] => none
      else none
    else
      let v := digitsVal [a]
      if lo1 ≤ v && v ≤ hi1 && b = delim then some (v, rest) else none
  else none
| _ => none

/-- Is `y` a Gregorian leap year? -/
def isLeapYear (y : Nat) : Bool :=
  y % 4 == 0 && (y % 100 != 0 || y % 400 == 0)

/-- Number of days in month `m` of year `y`. -/
def daysInMonth (y m : Nat) : Nat :=
  if m == 2 then (if isLeapYear y then 29 else 28)
  else if m == 4 || m == 6 || m == 9 || m == 11 then 30
  else 31

/-- `datetime.strptime(t, "%Y-%m-%dT%H:%M:%SZ")`: four year digits and
one-or-two-digit fields, full-string match, then the `datetime`
constructor's range checks (year at least 1, day within the month,
seconds below 60). `none` is the `ValueError`/`TypeError` the caller
catches with a bare `except`. -/
def parseTs (t : String) : Option (Nat × Nat × Nat × Nat × Nat × Nat) :=
  match t.toList with
  | a :: b :: c :: d :: e :: rest =>
    if a.isDigit && b.isDigit && c.isDigit && d.isDigit && e = '-' then
      let y := digitsVal [a, b, c, d]
      match parseField 1 12 1 9 '-' rest with
      | some (mo, r2) =>
        match parseField 1 31 1 9 'T' r2 with
        | some (dy, r3) =>
          match parseField 0 23 0 9 ':' r3 with
          | some (h, r4) =>
            match parseField 0 59 0 9 ':' r4 with
            | some (mi, r5) =>
              match parseField 0 61 0 9 'Z' r5 with
              | some (sec, r6) =>
                if r6.isEmpty && 1 ≤ y && dy ≤ daysInMonth y mo && sec ≤ 59 then
                  some (y, mo, dy, h, mi, sec)
                else none
              | none => none
            | none => none
          | none => none
        | none => none
      | none => none
    else none
  | _ => none

/-- Zero-padding to two digits, as `strftime` renders `%m`, `%d`, … -/
def pad2 (n : Nat) : String :=
  if n < 10 then "0" ++ toString n else toString n

/-- Zero-padding to four digits, as `strftime` renders `%Y`. -/
def pad4 (n : Nat) : String :=
  if n < 10 then "000" ++ toString n
  else if n < 100 then "00" ++ toString n
  else if n < 1000 then "0" ++ toString n
  else toString n

/-- The `event_datetime.strftime("%Y-%m-%d %H:%M:%S UTC")` rendering. -/
def fmtTs : Nat × Nat × Nat × Nat × Nat × Nat → String
| (y, mo, dy, h, mi, sec) =>
  pad4 y ++ "-" ++ pad2 mo ++ "-" ++ pad2 dy ++ " " ++ pad2 h ++ ":" ++ pad2 mi ++ ":" ++ pad2 sec ++ " UTC"

/-- The `try: … strptime … except: formatted_time = event_time` block:
a string in the expected format is reformatted, every other value
(unparseable string, or a non-string that makes `strptime` raise)
passes through unchanged. -/
def formatEventTime (event_time : JVal) : JVal :=
  match event_time with
  | .s t =>
    match parseTs t with
    | some p => .s (fmtTs p)
    | none => .s t
  | v => v

example : formatEventTime (.s "2024-01-02T03:04:05Z") = .s "2024-01-02 03:04:05 UTC" := by rfl
example : formatEventTime (.s "2024-02-30T03:04:05Z") = .s "2024-02-30T03:04:05Z" := by rfl
example : formatEventTime (.s "2024-1-2T3:4:5Z") = .s "2024-01-02 03:04:05 UTC" := by rfl
example : formatEventTime (.s "not-a-time") = .s "not-a-time" := by rfl
example : formatEventTime (.i 7) = .i 7 := by rfl

/-- The `resource_info` dict both classifiers build: `resourceType` is
always one of the string literals of the dispatch table, while
`resourceName`/`resourceId` hold whatever value (possibly `None`) was
extracted from `requestParameters`, and `additionalInfo` is an ordered
string-keyed dict. -/
structure ResourceDeletionInfo where
  resourceType : String
  resourceName : JVal
  resourceId : JVal
  additionalInfo : List (String × JVal)

/-- The default `resource_info` structure (`Unknown` everywhere). -/
def defaultResourceInfo : ResourceDeletionInfo :=
  { resourceType := "Unknown"
    resourceName := .s "Unknown"
    resourceId := .s "Unknown"
    additionalInfo := [] }

/-- One collaborator interaction of a handler invocation: a per-service
tag-lookup request, the Secrets Manager read, or the webhook POST. -/
inductive Call where
| tagLookup (service : String) : Call
| getSecret : Call
| webhookPost : Call
deriving DecidableEq

/-- Outcome of one boto3 tag-query call: the returned tag key/value
pairs (responses are modelled as their well-formed `Key`/`Value`
lists), or the exception the call raised. -/
def TagResult := Except String (List (String × String))

/-- The boto3 clients the regional handler builds at module level,
modelled as oracles: each maps the identifier argument the handler
passes to the call's outcome. -/
structure AwsClients where
  ec2_describe_tags : JVal → TagResult
  s3_get_bucket_tagging : JVal → TagResult
  rds_list_tags_for_resource : String → TagResult
  lambda_list_tags : String → TagResult
  elb_describe_tags : JVal → TagResult

/-- Python `tags[k] = v` on an (ordered) dict. -/
def dictInsert (d : List (String × String)) (k v : String) : List (String × String) :=
  if d.any (fun p => p.1 == k) then d.map (fun p => if p.1 == k then (k, v) else p)
  else d ++ [(k, v)]

/-- The `tags` dict accumulated by `for tag in …: tags[key] = value`. -/
def buildTags (resp : List (String × String)) : List (String × String) :=
  resp.foldl (fun d p => dictInsert d p.1 p.2) []

/-- `tags if tags else placeholder`: the tags dict as a JSON value when
non-empty, otherwise the branch's placeholder string. -/
def tagsOrElse (tags : List (String × String)) (placeholder : String) : JVal :=
  if tags.isEmpty then .s placeholder else .obj (tags.map (fun p => (p.1, .s p.2)))

/-- `instance_name`: the value of the last response tag whose key is
`Name` (each matching loop iteration overwrites it), else `None`. -/
def nameTagOf (resp : List (String × String)) : JVal :=
  match (resp.filter (fun p => p.1 == "Name")).getLast? with
  | some p => .s p.2
  | none => .null

namespace Notifier

/-- The `ec2.amazonaws.com`/`TerminateInstances` rule of
`resource_deletion_notifier.get_resource_info` (lines 211-251). -/
def terminateInstancesBranch (c : AwsClients) (event_detail : JVal) :
    Except String (ResourceDeletionInfo × List Call) := do
  let rp ← dictGetD event_detail "requestParameters" (.obj [])
  let iset ← dictGetD rp "instancesSet" (.obj [])
  let instance_ids ← dictGetD iset "items" (.arr [])
  if instance_ids.truthy then do
    let item0 ← pyIndex0 instance_ids
    let instance_id ← dictGet item0 "instanceId"
    let tr := c.ec2_describe_tags instance_id
    let instance_name0 := match tr with | .ok resp => nameTagOf resp | .error _ => JVal.null
    let tags := match tr with | .ok resp => buildTags resp | .error _ => []
    let region ← dictGetD event_detail "awsRegion" (.s "Unknown")
    pure ({ resourceType := "EC2 Instance"
            resourceName := if instance_name0.truthy then instance_name0 else instance_id
            resourceId := instance_id
            additionalInfo := [("region", region), ("tags", tagsOrElse tags "No tags found")] },
          [Call.tagLookup "ec2"])
  else
    pure (defaultResourceInfo, [])

/-- The `s3.amazonaws.com`/`DeleteBucket` rule (lines 254-278). -/
def deleteBucketBranch (c : AwsClients) (event_detail : JVal) :
    Except String (ResourceDeletionInfo × List Call) := do
  let rp ← dictGetD event_detail "requestParameters" (.obj [])
  let bucket_name ← dictGet rp "bucketName"
  let tr := c.s3_get_bucket_tagging bucket_name
  let tags := match tr with | .ok resp => buildTags resp | .error _ => []
  let region ← dictGetD event_detail "awsRegion" (.s "Unknown")
  pure ({ resourceType := "S3 Bucket"
          resourceName := bucket_name
          resourceId := bucket_name
          additionalInfo := [("region", region), ("tags", tagsOrElse tags "No tags found or bucket already deleted")] },
        [Call.tagLookup "s3"])

/-- The `rds.amazonaws.com`/`DeleteDBInstance` rule (lines 281-305).
The f-string building the ARN runs inside the `try`, so a failure
there (a non-dict `userIdentity`) is caught and skips the call. -/
def deleteDBInstanceBranch (c : AwsClients) (event_detail : JVal) :
    Except String (ResourceDeletionInfo × List Call) := do
  let request_params ← dictGetD event_detail "requestParameters" (.obj [])
  let db_instance_id ← dictGet request_params "dBInstanceIdentifier"
  let arnE : Except String String := do
    let region0 ← dictGetD event_detail "awsRegion" (.s "us-east-1")
    let ui ← dictGetD event_detail "userIdentity" (.obj [])
    let acct ← dictGetD ui "accountId" (.s "")
    pure ("arn:aws:rds:" ++ pyStr region0 ++ ":" ++ pyStr acct ++ ":db:" ++ pyStr db_instance_id)
  let tags := match arnE with
    | .ok arn => (match c.rds_list_tags_for_resource arn with | .ok resp => buildTags resp | .error _ => [])
    | .error _ => []
  let calls := match arnE with | .ok _ => [Call.tagLookup "rds"] | .error _ => []
  let region ← dictGetD event_detail "awsRegion" (.s "Unknown")
  let skip ← dictGetD request_params "skipFinalSnapshot" (.s "Unknown")
  pure ({ resourceType := "RDS Instance"
          resourceName := db_instance_id
          resourceId := db_instance_id
          additionalInfo := [("region", region), ("skipFinalSnapshot", skip),
            ("tags", tagsOrElse tags "No tags found or instance already deleted")] },
        calls)

/-- The `lambda.amazonaws.com`/`DeleteFunction20150331` rule
(lines 308-330); `tags = response.get("Tags", {})` takes the response
dict as is. -/
def deleteFunctionBranch (c : AwsClients) (event_detail : JVal) :
    Except String (ResourceDeletionInfo × List Call) := do
  let request_params ← dictGetD event_detail "requestParameters" (.obj [])
  let function_name ← dictGet request_params "functionName"
  let arnE : Except String String := do
    let region0 ← dictGetD event_detail "awsRegion" (.s "us-east-1")
    let ui ← dictGetD event_detail "userIdentity" (.obj [])
    let acct ← dictGetD ui "accountId" (.s "")
    pure ("arn:aws:lambda:" ++ pyStr region0 ++ ":" ++ pyStr acct ++ ":function:" ++ pyStr function_name)
  let tags := match arnE with
    | .ok arn => (match c.lambda_list_tags arn with | .ok resp => resp | .error _ => [])
    | .error _ => []
  let calls := match arnE with | .ok _ => [Call.tagLookup "lambda"] | .error _ => []
  let region ← dictGetD event_detail "awsRegion" (.s "Unknown")
  pure ({ resourceType := "Lambda Function"
          resourceName := function_name
          resourceId := function_name
          additionalInfo := [("region", region),
            ("tags", tagsOrElse tags "No tags found or function already deleted")] },
        calls)

/-- The `ec2.amazonaws.com`/`DeleteSecurityGroup` rule (lines 333-362). -/
def deleteSecurityGroupBranch (c : AwsClients) (event_detail : JVal) :
    Except String (ResourceDeletionInfo × List Call) := do
  let request_params ← dictGetD event_detail "requestParameters" (.obj [])
  let group_name ← dictGet request_params "groupName"
  let group_id ← dictGet request_params "groupId"
  let tr := c.ec2_describe_tags group_id
  let tags := match tr with | .ok resp => buildTags resp | .error _ => []
  let region ← dictGetD event_detail "awsRegion" (.s "Unknown")
  pure ({ resourceType := "Security Group"
          resourceName := group_name
          resourceId := group_id
          additionalInfo := [("region", region),
            ("tags", tagsOrElse tags "No tags found or security group already deleted")] },
        [Call.tagLookup "ec2"])

/-- The `ec2.amazonaws.com`/`DeleteVpc` rule (lines 365-393). -/
def deleteVpcBranch (c : AwsClients) (event_detail : JVal) :
    Except String (ResourceDeletionInfo × List Call) := do
  let request_params ← dictGetD event_detail "requestParameters" (.obj [])
  let vpc_id ← dictGet request_params "vpcId"
  let tr := c.ec2_describe_tags vpc_id
  let tags := match tr with | .ok resp => buildTags resp | .error _ => []
  let region ← dictGetD event_detail "awsRegion" (.s "Unknown")
  pure ({ resourceType := "VPC"
          resourceName := vpc_id
          resourceId := vpc_id
          additionalInfo := [("region", region),
            ("tags", tagsOrElse tags "No tags found or VPC already deleted")] },
        [Call.tagLookup "ec2"])

/-- The `elasticloadbalancing.amazonaws.com`/`DeleteLoadBalancer` rule
(lines 396-436): the name and type come from the ARN's slash segments
(`some (type, name)` below holds exactly when both were assigned), the
tag call is made only when `lb_arn` is truthy, and a `.split` failure
on a non-string ARN is caught leaving both at `Unknown`. -/
def deleteLoadBalancerBranch (c : AwsClients) (event_detail : JVal) :
    Except String (ResourceDeletionInfo × List Call) := do
  let request_params ← dictGetD event_detail "requestParameters" (.obj [])
  let lb_arn ← dictGet request_params "loadBalancerArn"
  let parsed : Option (String × String) :=
    if lb_arn.truthy then
      match lb_arn with
      | .s a =>
        let arn_parts := pySplit a "/"
        if arn_parts.length ≥ 3 then some (arn_parts.getD 1 "", arn_parts.getD 2 "") else none
      | _ => none
    else none
  let lb_name := match parsed with | some p => p.2 | none => "Unknown"
  let tr := if lb_arn.truthy then some (c.elb_describe_tags lb_arn) else none
  let tags := match tr with | some (.ok resp) => buildTags resp | some (.error _) => [] | none => []
  let region ← dictGetD event_detail "awsRegion" (.s "Unknown")
  pure ({ resourceType := "Elastic Load Balancer"
          resourceName := .s lb_name
          resourceId := lb_arn
          additionalInfo := [("region", region),
            ("loadBalancerType", .s (match parsed with | some p => p.1 | none => "Unknown")),
            ("tags", tagsOrElse tags "No tags found or load balancer already deleted")] },
        if lb_arn.truthy then [Call.tagLookup "elb"] else [])

/-- `resource_deletion_notifier.get_resource_info` (lines 192-438): the
if/elif dispatch on `(eventSource, eventName)`; no rule matching
leaves the default structure. Alongside the info record it returns the
tag-lookup calls the branch made. -/
def get_resource_info (c : AwsClients) (event_detail : JVal) :
    Except String (ResourceDeletionInfo × List Call) := do
  let event_source ← dictGetD event_detail "eventSource" (.s "")
  let event_name ← dictGetD event_detail "eventName" (.s "")
  if event_source.eqStr "ec2.amazonaws.com" && event_name.eqStr "TerminateInstances" then
    terminateInstancesBranch c event_detail
  else if event_source.eqStr "s3.amazonaws.com" && event_name.eqStr "DeleteBucket" then
    deleteBucketBranch c event_detail
  else if event_source.eqStr "rds.amazonaws.com" && event_name.eqStr "DeleteDBInstance" then
    deleteDBInstanceBranch c event_detail
  else if event_source.eqStr "lambda.amazonaws.com" && event_name.eqStr "DeleteFunction20150331" then
    deleteFunctionBranch c event_detail
  else if event_source.eqStr "ec2.amazonaws.com" && event_name.eqStr "DeleteSecurityGroup" then
    deleteSecurityGroupBranch c event_detail
  else if event_source.eqStr "ec2.amazonaws.com" && event_name.eqStr "DeleteVpc" then
    deleteVpcBranch c event_detail
  else if event_source.eqStr "elasticloadbalancing.amazonaws.com" && event_name.eqStr "DeleteLoadBalancer" then
    deleteLoadBalancerBranch c event_detail
  else
    pure (defaultResourceInfo, [])

end Notifier

/-- Does `(eventSource, eventName)` match one of the regional
handler's seven dispatch rules? -/
def regionalMatches (es en : JVal) : Bool :=
  (es.eqStr "ec2.amazonaws.com" && en.eqStr "TerminateInstances")
  || (es.eqStr "s3.amazonaws.com" && en.eqStr "DeleteBucket")
  || (es.eqStr "rds.amazonaws.com" && en.eqStr "DeleteDBInstance")
  || (es.eqStr "lambda.amazonaws.com" && en.eqStr "DeleteFunction20150331")
  || (es.eqStr "ec2.amazonaws.com" && en.eqStr "DeleteSecurityGroup")
  || (es.eqStr "ec2.amazonaws.com" && en.eqStr "DeleteVpc")
  || (es.eqStr "elasticloadbalancing.amazonaws.com" && en.eqStr "DeleteLoadBalancer")

/-- A client set whose every tag-lookup call raises. -/
def failingClients : AwsClients :=
  { ec2_describe_tags := fun _ => (.error "ClientError" : TagResult)
    s3_get_bucket_tagging := fun _ => (.error "ClientError" : TagResult)
    rds_list_tags_for_resource := fun _ => (.error "ClientError" : TagResult)
    lambda_list_tags := fun _ => (.error "ClientError" : TagResult)
    elb_describe_tags := fun _ => (.error "ClientError" : TagResult) }

example :
    Notifier.get_resource_info failingClients
      (.obj [("eventSource", .s "s3.amazonaws.com"), ("eventName", .s "DeleteBucket"),
             ("requestParameters", .obj [("bucketName", .s "my-bucket")]), ("awsRegion", .s "eu-west-1")])
    = .ok ({ resourceType := "S3 Bucket", resourceName := .s "my-bucket", resourceId := .s "my-bucket",
             additionalInfo := [("region", .s "eu-west-1"),
               ("tags", .s "No tags found or bucket already deleted")] },
           [Call.tagLookup "s3"]) := by rfl

example :
    Notifier.get_resource_info failingClients
      (.obj [("eventSource", .s "ec2.amazonaws.com"), ("eventName", .s "TerminateInstances"),
             ("requestParameters", .obj [("instancesSet", .obj [("items", .arr [.obj [("instanceId", .s "i-0123")]])])]),
             ("awsRegion", .s "us-east-1")])
    = .ok ({ resourceType := "EC2 Instance", resourceName := .s "i-0123", resourceId := .s "i-0123",
             additionalInfo := [("region", .s "us-east-1"), ("tags", .s "No tags found")] },
           [Call.tagLookup "ec2"]) := by rfl

namespace NotifierGlobal

/-- `resource_deletion_notifier_global.get_resource_info` (lines
97-148): IAM user deletion and Route53 record-set deletion; only
`changes[0]` is examined, and only when its `action == "DELETE"`; a
`/hostedzone/` prefix is stripped from `hostedZoneId` via
`split("/hostedzone/")[-1]`. This classifier makes no collaborator
calls; an empty call list is returned for uniformity with the
regional one. -/
def get_resource_info (event_detail : JVal) :
    Except String (ResourceDeletionInfo × List Call) := do
  let event_source ← dictGetD event_detail "eventSource" (.s "")
  let event_name ← dictGetD event_detail "eventName" (.s "")
  if event_source.eqStr "iam.amazonaws.com" && event_name.eqStr "DeleteUser" then do
    let request_params ← dictGetD event_detail "requestParameters" (.obj [])
    let user_name ← dictGet request_params "userName"
    let region ← dictGetD event_detail "awsRegion" (.s "Unknown")
    pure ({ resourceType := "IAM User"
            resourceName := user_name
            resourceId := user_name
            additionalInfo := [("region", region)] }, [])
  else if event_source.eqStr "route53.amazonaws.com" && event_name.eqStr "ChangeResourceRecordSets" then do
    let request_params ← dictGetD event_detail "requestParameters" (.obj [])
    let change_batch ← dictGetD request_params "changeBatch" (.obj [])
    let changes ← dictGetD change_batch "changes" (.arr [])
    if changes.truthy then do
      let change ← pyIndex0 changes
      let action ← dictGet change "action"
      if action.eqStr "DELETE" then do
        let record_set ← dictGetD change "resourceRecordSet" (.obj [])
        let hosted_zone_id0 ← dictGetD request_params "hostedZoneId" (.s "Unknown")
        let hosted_zone_id ←
          if hosted_zone_id0.truthy then
            match hosted_zone_id0 with
            | .s z =>
              pure (if pyStartsW z "/hostedzone/" then JVal.s ((pySplit z "/hostedzone/").getLastD z)
                    else hosted_zone_id0)
            | _ => (.error "AttributeError" : Except String JVal)
          else pure hosted_zone_id0
        let nm ← dictGetD record_set "name" (.s "Unknown")
        let ty ← dictGetD record_set "type" (.s "Unknown")
        let region ← dictGetD event_detail "awsRegion" (.s "Unknown")
        pure ({ resourceType := "Route53 DNS Record"
                resourceName := nm
                resourceId := .s (pyStr hosted_zone_id ++ "/" ++ pyStr nm ++ "/" ++ pyStr ty)
                additionalInfo := [("hostedZoneId", hosted_zone_id), ("recordType", ty), ("region", region)] }, [])
      else
        pure (defaultResourceInfo, [])
    else
      pure (defaultResourceInfo, [])
  else
    pure (defaultResourceInfo, [])

end NotifierGlobal

/-- Does `(eventSource, eventName)` match one of the global handler's
two dispatch rules? -/
def globalMatches (es en : JVal) : Bool :=
  (es.eqStr "iam.amazonaws.com" && en.eqStr "DeleteUser")
  || (es.eqStr "route53.amazonaws.com" && en.eqStr "ChangeResourceRecordSets")

example :
    NotifierGlobal.get_resource_info
      (.obj [("eventSource", .s "route53.amazonaws.com"), ("eventName", .s "ChangeResourceRecordSets"),
             ("requestParameters", .obj
               [("hostedZoneId", .s "/hostedzone/Z123"),
                ("changeBatch", .obj [("changes", .arr
                  [.obj [("action", .s "DELETE"),
                         ("resourceRecordSet", .obj [("name", .s "foo.example.com"), ("type", .s "A")])]])])]),
             ("awsRegion", .s "us-east-1")])
    = .ok ({ resourceType := "Route53 DNS Record", resourceName := .s "foo.example.com",
             resourceId := .s "Z123/foo.example.com/A",
             additionalInfo := [("hostedZoneId", .s "Z123"), ("recordType", .s "A"),
               ("region", .s "us-east-1")] }, []) := by rfl

/-- The rendered MessageCard: theme colour, summary, the single
HTML-bodied section, and the two fixed action links. -/
structure UriTarget where
  os : String
  uri : String

/-- One `potentialAction` entry of the card. -/
structure PotentialAct where
  atType : String
  name : String
  targets : List UriTarget

/-- The Teams MessageCard dict `create_teams_message` builds:
`atType`/`atContext` stand for the `@type`/`@context` keys. -/
structure TeamsMessage where
  atType : String
  atContext : String
  themeColor : String
  summary : String
  activityTitle : String
  activitySubtitle : String
  text : String
  markdown : Bool
  potentialAction : List PotentialAct

/-- Literal chunk of the card body f-string before the resource type (lines 482-523). -/
def cardLit1 : String :=
  "\n<div style=\"font-family: \x27Segoe UI\x27, Arial, sans-serif; max-width: 600px;\">\n    <div style=\"background: linear-gradient(135deg, #C43532 0%, #FF6666 100%); border-radius: 12px; padding: 20px; color: white; margin-bottom: 10px; box-shadow: 0 4px 8px rgba(0,0,0,0.1);\">\n        <div style=\"display: flex; align-items: center; justify-content: space-between;\">\n            <div>\n                <h2 style=\"margin: 0; font-size: 22px; font-weight: 600;\">‚ö†Ô∏è RESOURCE DELETED</h2>\n                <p style=\"margin: 5px 0 0 0; font-size: 16px; opacity: 0.9;\">"

/-- Literal chunk of the card body f-string between resource type and icon (lines 482-523). -/
def cardLit2 : String :=
  "</p>\n            </div>\n            <img src=\""

/-- Literal chunk of the card body f-string between icon and resource id (lines 482-523). -/
def cardLit3 : String :=
  "\" width=\"48\" height=\"48\" style=\"filter: brightness(0) invert(1); margin-left: 15px;\" />\n        </div>\n        <div style=\"margin-top: 20px; display: flex; justify-content: space-between; align-items: flex-end;\">\n            <div>\n                <p style=\"margin: 0; font-size: 14px; opacity: 0.9; font-weight: 500;\">RESOURCE ID</p>\n                <p style=\"margin: 0; font-size: 16px; font-family: \x27Courier New\x27, monospace; letter-spacing: 1px;\">"

/-- Literal chunk of the card body f-string between resource id and user name (lines 482-523). -/
def cardLit4 : String :=
  "</p>\n            </div>\n            <div style=\"text-align: right;\">\n                <p style=\"margin: 0; font-size: 14px; opacity: 0.9; font-weight: 500;\">DELETED BY</p>\n                <p style=\"margin: 0; font-size: 16px;\">"

/-- Literal chunk of the card body f-string between user name and resource name (lines 482-523). -/
def cardLit5 : String :=
  "</p>\n            </div>\n        </div>\n    </div>\n    \n    <div style=\"background: white; border-radius: 12px; padding: 20px; box-shadow: 0 2px 5px rgba(0,0,0,0.05);\">\n        <h3 style=\"margin: 0 0 15px 0; color: #C43532; font-size: 16px; border-bottom: 1px solid #eee; padding-bottom: 8px;\">üìä RESOURCE DETAILS</h3>\n        <div style=\"display: flex; flex-wrap: wrap;\">\n            <div style=\"flex: 1; min-width: 200px; margin-bottom: 10px;\">\n                <p style=\"margin: 0; font-size: 12px; color: #444; font-weight: 600;\">RESOURCE NAME</p>\n                <p style=\"margin: 5px 0 0 0; font-size: 15px; font-weight: 500; color: #222;\">"

/-- Literal chunk of the card body f-string between resource name and region (lines 482-523). -/
def cardLit6 : String :=
  "</p>\n            </div>\n            <div style=\"flex: 1; min-width: 200px; margin-bottom: 10px;\">\n                <p style=\"margin: 0; font-size: 12px; color: #444; font-weight: 600;\">REGION</p>\n                <p style=\"margin: 5px 0 0 0; font-size: 15px; font-weight: 500; color: #222;\">"

/-- Literal chunk of the card body f-string between region and timestamp (lines 482-523). -/
def cardLit7 : String :=
  "</p>\n            </div>\n            <div style=\"flex: 1; min-width: 200px; margin-bottom: 10px;\">\n                <p style=\"margin: 0; font-size: 12px; color: #444; font-weight: 600;\">TIMESTAMP</p>\n                <p style=\"margin: 5px 0 0 0; font-size: 15px; font-weight: 500; color: #222;\">"

/-- Literal chunk of the card body f-string between timestamp and user type (lines 482-523). -/
def cardLit8 : String :=
  "</p>\n            </div>\n            <div style=\"flex: 1; min-width: 200px; margin-bottom: 10px;\">\n                <p style=\"margin: 0; font-size: 12px; color: #444; font-weight: 600;\">USER TYPE</p>\n                <p style=\"margin: 5px 0 0 0; font-size: 15px; font-weight: 500; color: #222;\">"

/-- Literal chunk of the card body f-string after the user type (lines 482-523). -/
def cardLit9 : String :=
  "</p>\n            </div>\n        </div>"

/-- The additional-information section header (lines 553-556). -/
def aiHeaderLit : String :=
  "\n        <h3 style=\"margin: 15px 0 15px 0; color: #C43532; font-size: 16px; border-bottom: 1px solid #eee; padding-bottom: 8px;\">üìô ADDITIONAL INFORMATION</h3>\n        <div style=\"display: flex; flex-wrap: wrap;\">\n        "

/-- Per-entry chunk before the upper-cased key (lines 559-563). -/
def aiEntryLit1 : String :=
  "\n            <div style=\"flex: 1; min-width: 200px; margin-bottom: 10px;\">\n                <p style=\"margin: 0; font-size: 12px; color: #444; font-weight: 600;\">"

/-- Per-entry chunk between key and value. -/
def aiEntryLit2 : String :=
  "</p>\n                <p style=\"margin: 5px 0 0 0; font-size: 15px; font-weight: 500; color: #222;\">"

/-- Per-entry chunk after the value. -/
def aiEntryLit3 : String :=
  "</p>\n            </div>"

/-- Closing markup appended after the additional-information entries (lines 565-568). -/
def aiFooterLit : String :=
  "\n        </div>\n    </div>\n</div>"

/-- Closing markup when `additionalInfo` is empty (lines 572-575). -/
def plainCloserLit : String :=
  "\n        </div>\n    </div>\n</div>"


/-- Python `key.upper()` (the keys are ASCII identifiers). -/
def strUpper (s : String) : String :=
  String.mk (s.toList.map Char.toUpper)

/-- The pieces of the card body f-string, literal chunks alternating
with the rendered interpolations in template order. -/
def cardTextPieces (rtS iconS ridS unameS rnameS regionS ftimeS utypeS : String) : List String :=
  [cardLit1, rtS, cardLit2, iconS, cardLit3, ridS, cardLit4, unameS,
   cardLit5, rnameS, cardLit6, regionS, cardLit7, ftimeS, cardLit8, utypeS, cardLit9]

/-- One additional-information entry: upper-cased key and rendered value. -/
def aiEntryText (key : String) (value : JVal) : String :=
  aiEntryLit1 ++ strUpper key ++ aiEntryLit2 ++ pyStr value ++ aiEntryLit3

/-- The whole additional-information section (header, entries in dict
order, closing markup). -/
def aiSectionText (ai : List (String × JVal)) : String :=
  aiHeaderLit ++ concatAll (ai.map (fun p => aiEntryText p.1 p.2)) ++ aiFooterLit

/-- The user-identity resolution block of `create_teams_message`
(regional lines 451-460, global lines 161-170): `IAMUser` takes
`userName`, `AssumedRole` takes `sessionContext.sessionIssuer.userName`,
`Root` is the literal `Root User`, anything else `Unknown`. -/
def resolveUserName (user_type user_identity : JVal) : Except String JVal :=
  if user_type.eqStr "IAMUser" then
    dictGetD user_identity "userName" (.s "Unknown")
  else if user_type.eqStr "AssumedRole" then do
    let session_context ← dictGetD user_identity "sessionContext" (.obj [])
    let session_issuer ← dictGetD session_context "sessionIssuer" (.obj [])
    dictGetD session_issuer "userName" (.s "Unknown")
  else if user_type.eqStr "Root" then
    pure (.s "Root User")
  else
    pure (.s "Unknown")

/-- `event.get("detail", {}).get("eventSource", "Unknown").split(".")[0]`:
the handler computes (and never uses) this; a non-string value still
raises here. -/
def eventSourceHead (esv : JVal) : Except String String :=
  match esv with
  | .s x => .ok ((pySplit x ".").headD x)
  | _ => .error "AttributeError"

/-- `create_teams_message` (regional lines 441-577; the global copy at
lines 151-287 is byte-identical), parameterized by the module's
`get_service_icon`. The `try/except` around `strptime` is
`formatEventTime`; the final `+=` on the section text is the
conditional suffix. -/
def create_teams_message_with (icon : String → String) (event : JVal)
    (resource_info : ResourceDeletionInfo) : Except String TeamsMessage := do
  let detail ← dictGetD event "detail" (.obj [])
  let event_time ← dictGetD detail "eventTime" (.s "Unknown")
  let aws_region ← dictGetD detail "awsRegion" (.s "Unknown")
  let esv ← dictGetD detail "eventSource" (.s "Unknown")
  let _event_source ← eventSourceHead esv
  let user_identity ← dictGetD detail "userIdentity" (.obj [])
  let user_type ← dictGetD user_identity "type" (.s "Unknown")
  let user_name ← resolveUserName user_type user_identity
  let formatted_time := formatEventTime event_time
  let service_icon := icon resource_info.resourceType
  let rid22 ← pySlice resource_info.resourceId 22
  let baseText := concatAll (cardTextPieces resource_info.resourceType service_icon
    (pyStr rid22) (pyStr user_name) (pyStr resource_info.resourceName)
    (pyStr aws_region) (pyStr formatted_time) (pyStr user_type))
  pure { atType := "MessageCard"
         atContext := "http://schema.org/extensions"
         themeColor := "C43532"
         summary := resource_info.resourceType ++ " Deleted"
         activityTitle := ""
         activitySubtitle := ""
         text := baseText ++ (if resource_info.additionalInfo.isEmpty then plainCloserLit
                              else aiSectionText resource_info.additionalInfo)
         markdown := true
         potentialAction :=
           [ { atType := "OpenUri", name := "üîó View in AWS Console",
               targets := [{ os := "default", uri := "https://" ++ pyStr aws_region ++ ".console.aws.amazon.com" }] },
             { atType := "OpenUri", name := "üìö View AWS Documentation",
               targets := [{ os := "default", uri := "https://docs.aws.amazon.com" }] } ] }

/-- The fallback icon URL returned for any unmapped resource type
(both modules, `icon_mapping.get` default). -/
def defaultIconUrl : String :=
  "https://d1.awsstatic.com/webteam/architecture-icons/q42023/Res_AWS-Logo_48.svg"

namespace Notifier

/-- Data URL of the EC2 icon; the embedded SVG asset bytes are elided
(spec section 1 excludes the icon-asset data from scope), keeping only
that each resource type yields its own fixed data URL. -/
def ec2IconUrl : String := "data:image/svg+xml;base64,<Arch_Amazon-EC2_64>"

/-- Data URL of the S3 icon (asset bytes elided). -/
def s3IconUrl : String := "data:image/svg+xml;base64,<Arch_Amazon-Simple-Storage-Service_64>"

/-- Data URL of the RDS icon (asset bytes elided). -/
def rdsIconUrl : String := "data:image/svg+xml;base64,<Arch_Amazon-RDS_64>"

/-- Data URL of the Lambda icon (asset bytes elided). -/
def lambdaIconUrl : String := "data:image/svg+xml;base64,<Arch_AWS-Lambda_64>"

/-- Data URL of the Shield icon used for security groups (asset bytes elided). -/
def sgIconUrl : String := "data:image/svg+xml;base64,<Arch_AWS-Shield_64>"

/-- Data URL of the VPC icon (asset bytes elided). -/
def vpcIconUrl : String := "data:image/svg+xml;base64,<Arch_Amazon-Virtual-Private-Cloud_64>"

/-- Data URL of the ELB icon (asset bytes elided). -/
def elbIconUrl : String := "data:image/svg+xml;base64,<Arch_Elastic-Load-Balancing_64>"

/-- `resource_deletion_notifier.get_service_icon` (lines 56-189): the
fixed mapping from resource type to icon data URL, with a default for
unmapped types. -/
def get_service_icon (resource_type : String) : String :=
  if resource_type == "EC2 Instance" then ec2IconUrl
  else if resource_type == "S3 Bucket" then s3IconUrl
  else if resource_type == "RDS Instance" then rdsIconUrl
  else if resource_type == "Lambda Function" then lambdaIconUrl
  else if resource_type == "Security Group" then sgIconUrl
  else if resource_type == "VPC" then vpcIconUrl
  else if resource_type == "Elastic Load Balancer" then elbIconUrl
  else defaultIconUrl

/-- `resource_deletion_notifier.create_teams_message` (lines 441-577). -/
def create_teams_message (event : JVal) (resource_info : ResourceDeletionInfo) :
    Except String TeamsMessage :=
  create_teams_message_with get_service_icon event resource_info

end Notifier

namespace NotifierGlobal

/-- Data URL of the IAM icon (asset bytes elided). -/
def iamIconUrl : String := "data:image/svg+xml;base64,<Arch_AWS-Single-Sign-On_64>"

/-- Data URL of the Route53 icon (asset bytes elided). -/
def route53IconUrl : String := "data:image/svg+xml;base64,<Arch_Amazon-Route-53_64>"

/-- `resource_deletion_notifier_global.get_service_icon` (lines 51-94). -/
def get_service_icon (resource_type : String) : String :=
  if resource_type == "IAM User" then iamIconUrl
  else if resource_type == "Route53 DNS Record" then route53IconUrl
  else defaultIconUrl

/-- `resource_deletion_notifier_global.create_teams_message`
(lines 151-287; byte-identical to the regional copy except for the
icon table). -/
def create_teams_message (event : JVal) (resource_info : ResourceDeletionInfo) :
    Except String TeamsMessage :=
  create_teams_message_with get_service_icon event resource_info

end NotifierGlobal

/-- The `{statusCode, body}` dict a handler returns. -/
structure HandlerResponse where
  statusCode : Nat
  body : String

/-- The regional handler's collaborator environment: the module-level
boto3 tag clients, the Secrets Manager read (`get_webhook_url` either
returns the webhook URL from the secret or re-raises, lines 41-53) and
the webhook POST outcome (`send_teams_notification` catches its own
errors and returns a boolean, lines 580-598). -/
structure Env where
  clients : AwsClients
  secret : Except String String
  deliver : Bool

/-- The global handler's collaborator environment (no tag clients). -/
structure GEnv where
  secret : Except String String
  deliver : Bool

/-- The envelope check
`if "detail" not in event or "eventSource" not in event["detail"]`,
with Python's short-circuit evaluation: `event["detail"]` is evaluated
(and may raise) only when `detail` is present. -/
def validCheck (event : JVal) : Except String Bool := do
  let hasDetail ← pyContains event "detail"
  if hasDetail then do
    let d ← pyGetItem event "detail"
    pyContains d "eventSource"
  else
    pure false

namespace Notifier

/-- `resource_deletion_notifier.lambda_handler` (lines 601-649):
the envelope check, classification, secret read, rendering, delivery,
and the top-level `except Exception` that maps any raised error to a
500 response. The `resource_info is None` branch (lines 619-624) is
dead code — `get_resource_info` always returns a dict — and so has no
counterpart here. Returns the response and the collaborator calls made. -/
def lambda_handler (env : Env) (event : JVal) : HandlerResponse × List Call :=
  match validCheck event with
  | .error e => ({ statusCode := 500, body := "Error: " ++ e }, [])
  | .ok false => ({ statusCode := 400, body := "Not a valid CloudTrail event" }, [])
  | .ok true =>
    match pyGetItem event "detail" with
    | .error e => ({ statusCode := 500, body := "Error: " ++ e }, [])
    | .ok detail =>
      match get_resource_info env.clients detail with
      | .error e => ({ statusCode := 500, body := "Error: " ++ e }, [])
      | .ok (resource_info, calls) =>
        match env.secret with
        | .error e => ({ statusCode := 500, body := "Error: " ++ e }, calls ++ [Call.getSecret])
        | .ok _webhook_url =>
          match create_teams_message event resource_info with
          | .error e => ({ statusCode := 500, body := "Error: " ++ e }, calls ++ [Call.getSecret])
          | .ok _teams_message =>
            if env.deliver then
              ({ statusCode := 200,
                 body := "Notification sent for " ++ resource_info.resourceType
                   ++ " deletion: " ++ pyStr resource_info.resourceName },
               calls ++ [Call.getSecret, Call.webhookPost])
            else
              ({ statusCode := 500, body := "Failed to send Teams notification" },
               calls ++ [Call.getSecret, Call.webhookPost])

end Notifier

namespace NotifierGlobal

/-- `resource_deletion_notifier_global.lambda_handler` (lines 311-359),
structured exactly as the regional one. -/
def lambda_handler (env : GEnv) (event : JVal) : HandlerResponse × List Call :=
  match validCheck event with
  | .error e => ({ statusCode := 500, body := "Error: " ++ e }, [])
  | .ok false => ({ statusCode := 400, body := "Not a valid CloudTrail event" }, [])
  | .ok true =>
    match pyGetItem event "detail" with
    | .error e => ({ statusCode := 500, body := "Error: " ++ e }, [])
    | .ok detail =>
      match get_resource_info detail with
      | .error e => ({ statusCode := 500, body := "Error: " ++ e }, [])
      | .ok (resource_info, calls) =>
        match env.secret with
        | .error e => ({ statusCode := 500, body := "Error: " ++ e }, calls ++ [Call.getSecret])
        | .ok _webhook_url =>
          match create_teams_message event resource_info with
          | .error e => ({ statusCode := 500, body := "Error: " ++ e }, calls ++ [Call.getSecret])
          | .ok _teams_message =>
            if env.deliver then
              ({ statusCode := 200,
                 body := "Notification sent for " ++ resource_info.resourceType
                   ++ " deletion: " ++ pyStr resource_info.resourceName },
               calls ++ [Call.getSecret, Call.webhookPost])
            else
              ({ statusCode := 500, body := "Failed to send Teams notification" },
               calls ++ [Call.getSecret, Call.webhookPost])

end NotifierGlobal

/-! Infrastructure lemmas about the embedding. -/

theorem exBindOk {α β : Type} (a : α) (f : α → Except String β) :
    (Except.ok a >>= f) = f a := rfl

theorem exBindErr {α β : Type} (e : String) (f : α → Except String β) :
    ((Except.error e : Except String α) >>= f) = Except.error e := rfl

theorem exMapOk {α β : Type} (f : α → β) (a : α) :
    (Except.ok a : Except String α).map f = .ok (f a) := rfl

theorem exMapErr {α β : Type} (f : α → β) (e : String) :
    (Except.error e : Except String α).map f = .error e := rfl

theorem exPure {α : Type} (a : α) : (pure a : Except String α) = Except.ok a := rfl

theorem bindMapCongr {α β γ : Type} (m : Except String α) (f g : α → Except String β)
    (pj : β → γ) (h : ∀ a, (f a).map pj = (g a).map pj) :
    (m >>= f).map pj = (m >>= g).map pj := by
  cases m with
  | error e => rfl
  | ok a => exact h a

theorem dictGetD_obj (kvs : List (String × JVal)) (k : String) (d : JVal) :
    dictGetD (.obj kvs) k d = .ok ((lookupJ kvs k).getD d) := rfl

theorem anyEqFindIsSome {α : Type} (p : α → Bool) (l : List α) :
    l.any p = (l.find? p).isSome := by
  induction l with
  | nil => rfl
  | cons x xs ih =>
    by_cases h : p x <;> simp [List.any_cons, List.find?_cons, h, ih]

theorem pyContains_obj (kvs : List (String × JVal)) (k : String) :
    pyContains (.obj kvs) k = .ok (kvs.any (fun p => p.1 == k)) := rfl

theorem pyGetItem_obj (kvs : List (String × JVal)) (k : String) :
    pyGetItem (.obj kvs) k
      = (match lookupJ kvs k with | some v => .ok v | none => .error "KeyError") := rfl

theorem pyContains_obj_of_lookup (kvs : List (String × JVal)) (k : String) (v : JVal)
    (h : lookupJ kvs k = some v) : pyContains (.obj kvs) k = .ok true := by
  rw [pyContains_obj, anyEqFindIsSome]
  unfold lookupJ at h
  cases hf : List.find? (fun p => p.1 == k) kvs with
  | none => rw [hf] at h; simp at h
  | some w => simp [hf]

theorem pyContains_obj_of_lookup_none (kvs : List (String × JVal)) (k : String)
    (h : lookupJ kvs k = none) : pyContains (.obj kvs) k = .ok false := by
  rw [pyContains_obj, anyEqFindIsSome]
  unfold lookupJ at h
  cases hf : List.find? (fun p => p.1 == k) kvs with
  | none => simp [hf]
  | some w => rw [hf] at h; simp at h

theorem pyGetItem_of_lookup (kvs : List (String × JVal)) (k : String) (v : JVal)
    (h : lookupJ kvs k = some v) : pyGetItem (.obj kvs) k = .ok v := by
  rw [pyGetItem_obj, h]

/-- The substring relation used for the rendering claims: `needle`
occurs contiguously inside `hay`. -/
def StrHasSub (hay needle : String) : Prop :=
  ∃ p q, hay = p ++ needle ++ q

theorem concatAll_cons (x : String) (l : List String) :
    concatAll (x :: l) = x ++ concatAll l := rfl

theorem strHasSub_of_mem {l : List String} {x : String} (h : x ∈ l) :
    StrHasSub (concatAll l) x := by
  induction l with
  | nil => cases h
  | cons hd tl ih =>
    cases h with
    | head => exact ⟨"", concatAll tl, by simp [concatAll_cons]⟩
    | tail _ hm =>
      obtain ⟨p, q, hp⟩ := ih hm
      exact ⟨hd ++ p, q, by simp [concatAll_cons, hp, String.append_assoc]⟩

theorem strHasSub_append_right {a n : String} (b : String) (h : StrHasSub a n) :
    StrHasSub (a ++ b) n := by
  obtain ⟨p, q, hp⟩ := h
  exact ⟨p, q ++ b, by simp [hp, String.append_assoc]⟩

/-- Well-formedness of an optional `sessionContext` value per the data
model of spec section 3: absent, or a mapping whose `sessionIssuer`
is absent or a mapping. -/
def sessionContextWF : Option JVal → Bool
| none => true
| some (.obj skvs) =>
  match lookupJ skvs "sessionIssuer" with
  | none => true
  | some (.obj _) => true
  | some _ => false
| some _ => false

/-- Well-formedness of an optional `userIdentity` value per spec
section 3: absent, or a mapping with a well-formed `sessionContext`. -/
def userIdentityWF : Option JVal → Bool
| none => true
| some (.obj ukvs) => sessionContextWF (lookupJ ukvs "sessionContext")
| some _ => false

/-- Is an optional `eventSource` value absent or a string? -/
def eventSourceStrWF : Option JVal → Bool
| none => true
| some (.s _) => true
| some _ => false

theorem resolveUserName_ok (ut : JVal) (o : Option JVal) (h : userIdentityWF o = true) :
    ∃ un, resolveUserName ut (o.getD (.obj [])) = .ok un := by
  cases o with
  | none =>
    unfold resolveUserName
    split
    · exact ⟨_, rfl⟩
    · split
      · exact ⟨_, rfl⟩
      · split
        · exact ⟨_, rfl⟩
        · exact ⟨_, rfl⟩
  | some v =>
    cases v with
    | obj ukvs =>
      replace h : sessionContextWF (lookupJ ukvs "sessionContext") = true := h
      unfold resolveUserName
      split
      · exact ⟨_, rfl⟩
      · split
        · simp only [Option.getD_some, dictGetD_obj, exBindOk]
          cases hsc : lookupJ ukvs "sessionContext" with
          | none => exact ⟨_, rfl⟩
          | some sc =>
            rw [hsc] at h
            cases sc with
            | obj skvs =>
              replace h : (match lookupJ skvs "sessionIssuer" with
                | none => true
                | some (.obj _) => true
                | some _ => false) = true := h
              simp only [Option.getD_some, dictGetD_obj, exBindOk]
              cases hsi : lookupJ skvs "sessionIssuer" with
              | none => exact ⟨_, rfl⟩
              | some si =>
                rw [hsi] at h
                cases si with
                | obj sikvs => exact ⟨_, rfl⟩
                | null => simp at h
                | b x => simp at h
                | i n => simp at h
                | s x => simp at h
                | arr xs => simp at h
            | null => simp [sessionContextWF] at h
            | b x => simp [sessionContextWF] at h
            | i n => simp [sessionContextWF] at h
            | s x => simp [sessionContextWF] at h
            | arr xs => simp [sessionContextWF] at h
        · split
          · exact ⟨_, rfl⟩
          · exact ⟨_, rfl⟩
    | null => simp [userIdentityWF] at h
    | b x => simp [userIdentityWF] at h
    | i n => simp [userIdentityWF] at h
    | s x => simp [userIdentityWF] at h
    | arr xs => simp [userIdentityWF] at h

theorem eventSourceHead_ok (o : Option JVal) (h : eventSourceStrWF o = true) :
    ∃ y, eventSourceHead (o.getD (.s "Unknown")) = .ok y := by
  cases o with
  | none => exact ⟨_, rfl⟩
  | some v =>
    cases v with
    | s x => exact ⟨_, rfl⟩
    | null => simp [eventSourceStrWF] at h
    | b x => simp [eventSourceStrWF] at h
    | i n => simp [eventSourceStrWF] at h
    | arr xs => simp [eventSourceStrWF] at h
    | obj kvs => simp [eventSourceStrWF] at h

theorem create_ok_with (icon : String → String) (kvs dk : List (String × JVal))
    (rid rt : String) (rn : JVal) (ai : List (String × JVal)) (ut un : JVal)
    (hd : lookupJ kvs "detail" = some (.obj dk))
    (hes : eventSourceStrWF (lookupJ dk "eventSource") = true)
    (hut : dictGetD ((lookupJ dk "userIdentity").getD (.obj [])) "type" (.s "Unknown") = .ok ut)
    (hun : resolveUserName ut ((lookupJ dk "userIdentity").getD (.obj [])) = .ok un) :
    create_teams_message_with icon (.obj kvs)
        { resourceType := rt, resourceName := rn, resourceId := .s rid, additionalInfo := ai }
      = .ok
        { atType := "MessageCard"
          atContext := "http://schema.org/extensions"
          themeColor := "C43532"
          summary := rt ++ " Deleted"
          activityTitle := ""
          activitySubtitle := ""
          text := concatAll (cardTextPieces rt (icon rt)
              (String.mk (rid.toList.take 22)) (pyStr un) (pyStr rn)
              (pyStr ((lookupJ dk "awsRegion").getD (.s "Unknown")))
              (pyStr (formatEventTime ((lookupJ dk "eventTime").getD (.s "Unknown"))))
              (pyStr ut))
            ++ (if ai.isEmpty then plainCloserLit else aiSectionText ai)
          markdown := true
          potentialAction :=
            [ { atType := "OpenUri", name := "üîó View in AWS Console",
                targets := [{ os := "default", uri := "https://" ++ pyStr ((lookupJ dk "awsRegion").getD (.s "Unknown")) ++ ".console.aws.amazon.com" }] },
              { atType := "OpenUri", name := "üìö View AWS Documentation",
                targets := [{ os := "default", uri := "https://docs.aws.amazon.com" }] } ] } := by
  obtain ⟨y, hy⟩ := eventSourceHead_ok _ hes
  unfold create_teams_message_with
  rw [dictGetD_obj, hd]
  simp only [Option.getD_some, exBindOk, dictGetD_obj]
  rw [hy]
  simp only [exBindOk]
  rw [hut]
  simp only [exBindOk]
  rw [hun]
  simp only [exBindOk]
  rfl

theorem bind_ok_ex {α β : Type} {m : Except String α} {f : α → Except String β} {b : β}
    (h : (m >>= f) = .ok b) : ∃ a, m = .ok a ∧ f a = .ok b := by
  cases m with
  | error e => rw [exBindErr] at h; exact absurd h (by simp)
  | ok a => exact ⟨a, rfl, h⟩

/-- C8: Rendering is deterministic: for every pair of an event envelope
and a `ResourceDeletionInfo` record, two calls of `create_teams_message`
(in either handler module) with identical inputs produce identical
notification documents — two-run equality of the embedded function. -/
theorem c8_render_deterministic (e : JVal) (i : ResourceDeletionInfo) :
    Notifier.create_teams_message e i = Notifier.create_teams_message e i
    ∧ NotifierGlobal.create_teams_message e i = NotifierGlobal.create_teams_message e i :=
  ⟨rfl, rfl⟩

/-- The spec's Route53 scenario detail: one change with action
`DELETE`, `resourceRecordSet = {name: foo.example.com, type: A}` and
`hostedZoneId = /hostedzone/Z123`. -/
def r53ScenarioDetail : JVal :=
  .obj [("eventSource", .s "route53.amazonaws.com"), ("eventName", .s "ChangeResourceRecordSets"),
        ("requestParameters", .obj
          [("hostedZoneId", .s "/hostedzone/Z123"),
           ("changeBatch", .obj [("changes", .arr
             [.obj [("action", .s "DELETE"),
                    ("resourceRecordSet", .obj [("name", .s "foo.example.com"), ("type", .s "A")])]])])]),
        ("awsRegion", .s "us-east-1")]

/-- A Route53 detail whose change batch holds a non-`DELETE` change
first and a `DELETE` change (for `foo.example.com`) second. -/
def r53TwoChangesDetail : JVal :=
  .obj [("eventSource", .s "route53.amazonaws.com"), ("eventName", .s "ChangeResourceRecordSets"),
        ("requestParameters", .obj
          [("hostedZoneId", .s "/hostedzone/Z123"),
           ("changeBatch", .obj [("changes", .arr
             [.obj [("action", .s "UPSERT"),
                    ("resourceRecordSet", .obj [("name", .s "bar.example.com"), ("type", .s "A")])],
              .obj [("action", .s "DELETE"),
                    ("resourceRecordSet", .obj [("name", .s "foo.example.com"), ("type", .s "A")])]])])]),
        ("awsRegion", .s "us-east-1")]

/-- C3 counterexample: a non-empty change batch whose first entry whose
action equals `DELETE` is the second list element. The claim says
classification extracts from that entry (yielding resource type
`Route53 DNS Record`); the code only ever looks at `changes[0]`, whose
action here is `UPSERT`, and returns the default record instead. -/
theorem c3_first_delete_entry_cex :
    NotifierGlobal.get_resource_info r53TwoChangesDetail = .ok (defaultResourceInfo, [])
    ∧ defaultResourceInfo.resourceType ≠ "Route53 DNS Record" :=
  ⟨rfl, by decide⟩

/-- C3 (amended): classification extracts from `changes[0]` alone, and
only when that entry's action equals `DELETE`: for every such detail
(arbitrary later changes), it takes `resourceRecordSet.name`/`type`
and strips a `/hostedzone/` prefix from `hostedZoneId`; in particular
the spec's one-change scenario yields `resourceId =
Z123/foo.example.com/A` and resource type `Route53 DNS Record`. -/
theorem c3_route53_extraction_amended :
    (NotifierGlobal.get_resource_info r53ScenarioDetail
      = .ok ({ resourceType := "Route53 DNS Record", resourceName := .s "foo.example.com",
               resourceId := .s "Z123/foo.example.com/A",
               additionalInfo := [("hostedZoneId", .s "Z123"), ("recordType", .s "A"),
                 ("region", .s "us-east-1")] }, []))
    ∧ ∀ (dkvs rp cb chv rs : List (String × JVal)) (rest : List JVal) (av : JVal) (z : String),
      lookupJ dkvs "eventSource" = some (.s "route53.amazonaws.com") →
      lookupJ dkvs "eventName" = some (.s "ChangeResourceRecordSets") →
      lookupJ dkvs "requestParameters" = some (.obj rp) →
      lookupJ rp "changeBatch" = some (.obj cb) →
      lookupJ cb "changes" = some (.arr (JVal.obj chv :: rest)) →
      lookupJ chv "action" = some av →
      av.eqStr "DELETE" = true →
      lookupJ chv "resourceRecordSet" = some (.obj rs) →
      lookupJ rp "hostedZoneId" = some (.s z) →
      pyStartsW z "/hostedzone/" = true →
      NotifierGlobal.get_resource_info (.obj dkvs)
        = .ok ({ resourceType := "Route53 DNS Record"
                 resourceName := (lookupJ rs "name").getD (.s "Unknown")
                 resourceId := .s (pyStr (.s ((pySplit z "/hostedzone/").getLastD z)) ++ "/"
                   ++ pyStr ((lookupJ rs "name").getD (.s "Unknown")) ++ "/"
                   ++ pyStr ((lookupJ rs "type").getD (.s "Unknown")))
                 additionalInfo := [("hostedZoneId", .s ((pySplit z "/hostedzone/").getLastD z)),
                   ("recordType", (lookupJ rs "type").getD (.s "Unknown")),
                   ("region", (lookupJ dkvs "awsRegion").getD (.s "Unknown"))] }, []) := by
  constructor
  · rfl
  · intro dkvs rp cb chv rs rest av z hes hen hrp hcb hch hact hav hhz hz hpre
    have hzne : z ≠ "" := by
      intro hemp
      rw [hemp] at hpre
      simp [pyStartsW, List.isPrefixOf] at hpre
    unfold NotifierGlobal.get_resource_info
    simp only [dictGetD_obj, exBindOk, hes, hen, Option.getD_some]
    simp only [JVal.eqStr, show ("route53.amazonaws.com" == "iam.amazonaws.com") = false by simp,
      Bool.false_and, Bool.false_eq_true, if_false,
      show ("route53.amazonaws.com" == "route53.amazonaws.com") = true by simp,
      show ("ChangeResourceRecordSets" == "ChangeResourceRecordSets") = true by simp,
      Bool.and_self, if_true]
    simp only [dictGetD_obj, exBindOk, hrp, hcb, hch, Option.getD_some]
    simp only [show JVal.truthy (.arr (JVal.obj chv :: rest)) = true from rfl, if_true]
    simp only [show pyIndex0 (.arr (JVal.obj chv :: rest)) = .ok (.obj chv) from rfl, exBindOk]
    simp only [dictGet, dictGetD_obj, exBindOk, hact, Option.getD_some, hav, if_true]
    simp only [JVal.eqStr] at hav
    simp only [hhz, hz, Option.getD_some, hav, if_true]
    rw [if_pos (show (JVal.s z).truthy = true by simp [JVal.truthy, hzne])]
    simp only [hpre, if_true, dictGetD_obj, exBindOk, exPure]

/-- Witness for C3 (amended): the general extraction conjunct applied
to the spec's one-change scenario. -/
theorem c3_route53_extraction_witness :
    NotifierGlobal.get_resource_info r53ScenarioDetail
      = .ok ({ resourceType := "Route53 DNS Record", resourceName := .s "foo.example.com",
               resourceId := .s "Z123/foo.example.com/A",
               additionalInfo := [("hostedZoneId", .s "Z123"), ("recordType", .s "A"),
                 ("region", .s "us-east-1")] }, []) := by
  have h := c3_route53_extraction_amended.2
    [("eventSource", .s "route53.amazonaws.com"), ("eventName", .s "ChangeResourceRecordSets"),
     ("requestParameters", .obj
       [("hostedZoneId", .s "/hostedzone/Z123"),
        ("changeBatch", .obj [("changes", .arr
          [.obj [("action", .s "DELETE"),
                 ("resourceRecordSet", .obj [("name", .s "foo.example.com"), ("type", .s "A")])]])])]),
     ("awsRegion", .s "us-east-1")]
    [("hostedZoneId", .s "/hostedzone/Z123"),
     ("changeBatch", .obj [("changes", .arr
       [.obj [("action", .s "DELETE"),
              ("resourceRecordSet", .obj [("name", .s "foo.example.com"), ("type", .s "A")])]])])]
    [("changes", .arr
      [.obj [("action", .s "DELETE"),
             ("resourceRecordSet", .obj [("name", .s "foo.example.com"), ("type", .s "A")])]])]
    [("action", .s "DELETE"),
     ("resourceRecordSet", .obj [("name", .s "foo.example.com"), ("type", .s "A")])]
    [("name", .s "foo.example.com"), ("type", .s "A")]
    [] (.s "DELETE") "/hostedzone/Z123"
    (by rfl) (by rfl) (by rfl) (by rfl) (by rfl) (by rfl) (by rfl) (by rfl) (by rfl) (by rfl)
  exact h

/-- A Route53 detail with an empty `changes` list. -/
def r53EmptyChangesDetail : JVal :=
  .obj [("eventSource", .s "route53.amazonaws.com"), ("eventName", .s "ChangeResourceRecordSets"),
        ("requestParameters", .obj
          [("hostedZoneId", .s "/hostedzone/Z123"),
           ("changeBatch", .obj [("changes", .arr [])])]),
        ("awsRegion", .s "us-east-1")]

/-- C10: the global classifier examines only `changeBatch.changes[0]`:
with an empty `changes` list, or a first change whose action is not
exactly `DELETE` (whatever the later changes hold), it returns the
default record, whose `resourceType` is `Unknown` and whose
`additionalInfo` is empty. -/
theorem c10_route53_first_change_only :
    (∀ (dkvs rp cb : List (String × JVal)),
      lookupJ dkvs "eventSource" = some (.s "route53.amazonaws.com") →
      lookupJ dkvs "eventName" = some (.s "ChangeResourceRecordSets") →
      lookupJ dkvs "requestParameters" = some (.obj rp) →
      lookupJ rp "changeBatch" = some (.obj cb) →
      lookupJ cb "changes" = some (.arr []) →
      NotifierGlobal.get_resource_info (.obj dkvs) = .ok (defaultResourceInfo, []))
    ∧ (∀ (dkvs rp cb : List (String × JVal)) (ch0 : JVal) (rest : List JVal) (av : JVal),
      lookupJ dkvs "eventSource" = some (.s "route53.amazonaws.com") →
      lookupJ dkvs "eventName" = some (.s "ChangeResourceRecordSets") →
      lookupJ dkvs "requestParameters" = some (.obj rp) →
      lookupJ rp "changeBatch" = some (.obj cb) →
      lookupJ cb "changes" = some (.arr (ch0 :: rest)) →
      dictGet ch0 "action" = .ok av →
      av.eqStr "DELETE" = false →
      NotifierGlobal.get_resource_info (.obj dkvs) = .ok (defaultResourceInfo, []))
    ∧ defaultResourceInfo.resourceType = "Unknown"
    ∧ defaultResourceInfo.additionalInfo = [] := by
  refine ⟨?_, ?_, rfl, rfl⟩
  · intro dkvs rp cb hes hen hrp hcb hch
    unfold NotifierGlobal.get_resource_info
    simp only [dictGetD_obj, exBindOk, hes, hen, Option.getD_some]
    simp only [JVal.eqStr, show ("route53.amazonaws.com" == "iam.amazonaws.com") = false by simp,
      Bool.false_and, Bool.false_eq_true, if_false,
      show ("route53.amazonaws.com" == "route53.amazonaws.com") = true by simp,
      show ("ChangeResourceRecordSets" == "ChangeResourceRecordSets") = true by simp,
      Bool.and_self, if_true]
    simp only [dictGetD_obj, exBindOk, hrp, hcb, hch, Option.getD_some]
    simp only [show JVal.truthy (.arr []) = false from rfl, if_false]
    rfl
  · intro dkvs rp cb ch0 rest av hes hen hrp hcb hch hact hav
    unfold NotifierGlobal.get_resource_info
    simp only [dictGetD_obj, exBindOk, hes, hen, Option.getD_some]
    simp only [JVal.eqStr, show ("route53.amazonaws.com" == "iam.amazonaws.com") = false by simp,
      Bool.false_and, Bool.false_eq_true, if_false,
      show ("route53.amazonaws.com" == "route53.amazonaws.com") = true by simp,
      show ("ChangeResourceRecordSets" == "ChangeResourceRecordSets") = true by simp,
      Bool.and_self, if_true]
    simp only [dictGetD_obj, exBindOk, hrp, hcb, hch, Option.getD_some]
    simp only [show JVal.truthy (.arr (ch0 :: rest)) = true from rfl, if_true]
    simp only [show pyIndex0 (.arr (ch0 :: rest)) = .ok ch0 from rfl, exBindOk]
    simp only [JVal.eqStr] at hav
    simp only [hact, exBindOk, hav, Bool.false_eq_true, if_false]
    rfl

/-- Witness for C10: the two-change detail (first change `UPSERT`, a
later `DELETE`) and the empty-changes detail both classify to the
default record. -/
theorem c10_route53_first_change_only_witness :
    NotifierGlobal.get_resource_info r53EmptyChangesDetail = .ok (defaultResourceInfo, [])
    ∧ NotifierGlobal.get_resource_info r53TwoChangesDetail = .ok (defaultResourceInfo, []) := by
  constructor
  · exact c10_route53_first_change_only.1
      [("eventSource", .s "route53.amazonaws.com"), ("eventName", .s "ChangeResourceRecordSets"),
       ("requestParameters", .obj
         [("hostedZoneId", .s "/hostedzone/Z123"), ("changeBatch", .obj [("changes", .arr [])])]),
       ("awsRegion", .s "us-east-1")]
      [("hostedZoneId", .s "/hostedzone/Z123"), ("changeBatch", .obj [("changes", .arr [])])]
      [("changes", .arr [])]
      (by rfl) (by rfl) (by rfl) (by rfl) (by rfl)
  · exact c10_route53_first_change_only.2.1
      [("eventSource", .s "route53.amazonaws.com"), ("eventName", .s "ChangeResourceRecordSets"),
       ("requestParameters", .obj
         [("hostedZoneId", .s "/hostedzone/Z123"),
          ("changeBatch", .obj [("changes", .arr
            [.obj [("action", .s "UPSERT"),
                   ("resourceRecordSet", .obj [("name", .s "bar.example.com"), ("type", .s "A")])],
             .obj [("action", .s "DELETE"),
                   ("resourceRecordSet", .obj [("name", .s "foo.example.com"), ("type", .s "A")])]])])]),
       ("awsRegion", .s "us-east-1")]
      [("hostedZoneId", .s "/hostedzone/Z123"),
       ("changeBatch", .obj [("changes", .arr
         [.obj [("action", .s "UPSERT"),
                ("resourceRecordSet", .obj [("name", .s "bar.example.com"), ("type", .s "A")])],
          .obj [("action", .s "DELETE"),
                ("resourceRecordSet", .obj [("name", .s "foo.example.com"), ("type", .s "A")])]])])]
      [("changes", .arr
        [.obj [("action", .s "UPSERT"),
               ("resourceRecordSet", .obj [("name", .s "bar.example.com"), ("type", .s "A")])],
         .obj [("action", .s "DELETE"),
               ("resourceRecordSet", .obj [("name", .s "foo.example.com"), ("type", .s "A")])]])]
      (.obj [("action", .s "UPSERT"),
             ("resourceRecordSet", .obj [("name", .s "bar.example.com"), ("type", .s "A")])])
      [.obj [("action", .s "DELETE"),
             ("resourceRecordSet", .obj [("name", .s "foo.example.com"), ("type", .s "A")])]]
      (.s "UPSERT")
      (by rfl) (by rfl) (by rfl) (by rfl) (by rfl) (by rfl) (by rfl)

theorem gri_s3_case (c : AwsClients) (d : JVal)
    (hes : dictGetD d "eventSource" (.s "") = .ok (.s "s3.amazonaws.com"))
    (hen : dictGetD d "eventName" (.s "") = .ok (.s "DeleteBucket")) :
    Notifier.get_resource_info c d = Notifier.deleteBucketBranch c d := by
  unfold Notifier.get_resource_info
  rw [hes, exBindOk, hen, exBindOk]
  simp [JVal.eqStr]

theorem gri_ec2terminate_case (c : AwsClients) (d : JVal)
    (hes : dictGetD d "eventSource" (.s "") = .ok (.s "ec2.amazonaws.com"))
    (hen : dictGetD d "eventName" (.s "") = .ok (.s "TerminateInstances")) :
    Notifier.get_resource_info c d = Notifier.terminateInstancesBranch c d := by
  unfold Notifier.get_resource_info
  rw [hes, exBindOk, hen, exBindOk]
  simp [JVal.eqStr]

theorem gri_rds_case (c : AwsClients) (d : JVal)
    (hes : dictGetD d "eventSource" (.s "") = .ok (.s "rds.amazonaws.com"))
    (hen : dictGetD d "eventName" (.s "") = .ok (.s "DeleteDBInstance")) :
    Notifier.get_resource_info c d = Notifier.deleteDBInstanceBranch c d := by
  unfold Notifier.get_resource_info
  rw [hes, exBindOk, hen, exBindOk]
  simp [JVal.eqStr]

theorem gri_lambda_case (c : AwsClients) (d : JVal)
    (hes : dictGetD d "eventSource" (.s "") = .ok (.s "lambda.amazonaws.com"))
    (hen : dictGetD d "eventName" (.s "") = .ok (.s "DeleteFunction20150331")) :
    Notifier.get_resource_info c d = Notifier.deleteFunctionBranch c d := by
  unfold Notifier.get_resource_info
  rw [hes, exBindOk, hen, exBindOk]
  simp [JVal.eqStr]

theorem gri_sg_case (c : AwsClients) (d : JVal)
    (hes : dictGetD d "eventSource" (.s "") = .ok (.s "ec2.amazonaws.com"))
    (hen : dictGetD d "eventName" (.s "") = .ok (.s "DeleteSecurityGroup")) :
    Notifier.get_resource_info c d = Notifier.deleteSecurityGroupBranch c d := by
  unfold Notifier.get_resource_info
  rw [hes, exBindOk, hen, exBindOk]
  simp [JVal.eqStr]

theorem gri_vpc_case (c : AwsClients) (d : JVal)
    (hes : dictGetD d "eventSource" (.s "") = .ok (.s "ec2.amazonaws.com"))
    (hen : dictGetD d "eventName" (.s "") = .ok (.s "DeleteVpc")) :
    Notifier.get_resource_info c d = Notifier.deleteVpcBranch c d := by
  unfold Notifier.get_resource_info
  rw [hes, exBindOk, hen, exBindOk]
  simp [JVal.eqStr]

theorem gri_elb_case (c : AwsClients) (d : JVal)
    (hes : dictGetD d "eventSource" (.s "") = .ok (.s "elasticloadbalancing.amazonaws.com"))
    (hen : dictGetD d "eventName" (.s "") = .ok (.s "DeleteLoadBalancer")) :
    Notifier.get_resource_info c d = Notifier.deleteLoadBalancerBranch c d := by
  unfold Notifier.get_resource_info
  rw [hes, exBindOk, hen, exBindOk]
  simp [JVal.eqStr]

theorem gri_unmatched (c : AwsClients) (d : JVal) (es en : JVal)
    (hes : dictGetD d "eventSource" (.s "") = .ok es)
    (hen : dictGetD d "eventName" (.s "") = .ok en)
    (h : regionalMatches es en = false) :
    Notifier.get_resource_info c d = .ok (defaultResourceInfo, []) := by
  unfold Notifier.get_resource_info
  rw [hes, exBindOk, hen, exBindOk]
  simp only [regionalMatches, Bool.or_eq_false_iff] at h
  obtain ⟨⟨⟨⟨⟨⟨h1, h2⟩, h3⟩, h4⟩, h5⟩, h6⟩, h7⟩ := h
  simp [h1, h2, h3, h4, h5, h6, h7, exPure]

theorem griG_iam_case (d : JVal)
    (hes : dictGetD d "eventSource" (.s "") = .ok (.s "iam.amazonaws.com"))
    (hen : dictGetD d "eventName" (.s "") = .ok (.s "DeleteUser")) :
    NotifierGlobal.get_resource_info d = (do
      let request_params ← dictGetD d "requestParameters" (.obj [])
      let user_name ← dictGet request_params "userName"
      let region ← dictGetD d "awsRegion" (.s "Unknown")
      pure ({ resourceType := "IAM User", resourceName := user_name, resourceId := user_name,
              additionalInfo := [("region", region)] }, ([] : List Call))) := by
  unfold NotifierGlobal.get_resource_info
  rw [hes, exBindOk, hen, exBindOk]
  simp [JVal.eqStr]

theorem griG_unmatched (d : JVal) (es en : JVal)
    (hes : dictGetD d "eventSource" (.s "") = .ok es)
    (hen : dictGetD d "eventName" (.s "") = .ok en)
    (h : globalMatches es en = false) :
    NotifierGlobal.get_resource_info d = .ok (defaultResourceInfo, []) := by
  unfold NotifierGlobal.get_resource_info
  rw [hes, exBindOk, hen, exBindOk]
  simp only [globalMatches, Bool.or_eq_false_iff] at h
  obtain ⟨h1, h2⟩ := h
  simp [h1, h2, exPure]

/-- An S3 `DeleteBucket` detail whose `requestParameters` lacks
`bucketName`. -/
def s3NoBucketDetail : JVal :=
  .obj [("eventSource", .s "s3.amazonaws.com"), ("eventName", .s "DeleteBucket"),
        ("requestParameters", .obj []), ("awsRegion", .s "us-east-1")]

/-- C2 counterexample: for an S3 deletion whose `requestParameters`
lacks `bucketName`, classification returns normally but sets
`resourceName` and `resourceId` to Python `None` (`requestParameters.get("bucketName")`),
not to the literal string `Unknown` the claim states. -/
theorem c2_missing_field_unknown_cex :
    Notifier.get_resource_info failingClients s3NoBucketDetail
      = .ok ({ resourceType := "S3 Bucket", resourceName := .null, resourceId := .null,
               additionalInfo := [("region", .s "us-east-1"),
                 ("tags", .s "No tags found or bucket already deleted")] },
             [Call.tagLookup "s3"])
    ∧ JVal.null ≠ JVal.s "Unknown" :=
  ⟨rfl, by simp⟩

/-- C2 (amended): when `requestParameters` lacks the identifying field
(`bucketName` for S3, `dBInstanceIdentifier` for RDS,
`userName` for IAM), classification still returns normally, but the
`resourceName` and `resourceId` fields of the returned record are
Python `None` (null), not the literal string `Unknown` (that fallback
exists only for other fields such as the ELB name or the Route53
record name/type). -/
theorem c2_missing_field_null_amended :
    (∀ (c : AwsClients) (dkvs rp : List (String × JVal)),
      lookupJ dkvs "eventSource" = some (.s "s3.amazonaws.com") →
      lookupJ dkvs "eventName" = some (.s "DeleteBucket") →
      lookupJ dkvs "requestParameters" = some (.obj rp) →
      lookupJ rp "bucketName" = none →
      ∃ info calls, Notifier.get_resource_info c (.obj dkvs) = .ok (info, calls)
        ∧ info.resourceName = .null ∧ info.resourceId = .null)
    ∧ (∀ (c : AwsClients) (dkvs rp : List (String × JVal)),
      lookupJ dkvs "eventSource" = some (.s "rds.amazonaws.com") →
      lookupJ dkvs "eventName" = some (.s "DeleteDBInstance") →
      lookupJ dkvs "requestParameters" = some (.obj rp) →
      lookupJ rp "dBInstanceIdentifier" = none →
      ∃ info calls, Notifier.get_resource_info c (.obj dkvs) = .ok (info, calls)
        ∧ info.resourceName = .null ∧ info.resourceId = .null)
    ∧ (∀ (dkvs rp : List (String × JVal)),
      lookupJ dkvs "eventSource" = some (.s "iam.amazonaws.com") →
      lookupJ dkvs "eventName" = some (.s "DeleteUser") →
      lookupJ dkvs "requestParameters" = some (.obj rp) →
      lookupJ rp "userName" = none →
      ∃ info calls, NotifierGlobal.get_resource_info (.obj dkvs) = .ok (info, calls)
        ∧ info.resourceName = .null ∧ info.resourceId = .null) := by
  refine ⟨?_, ?_, ?_⟩
  · intro c dkvs rp hes hen hrp hb
    rw [gri_s3_case c _ (by rw [dictGetD_obj, hes]; rfl) (by rw [dictGetD_obj, hen]; rfl)]
    unfold Notifier.deleteBucketBranch
    simp only [dictGetD_obj, exBindOk, hrp, Option.getD_some, dictGet, hb, Option.getD_none, exPure]
    exact ⟨_, _, rfl, rfl, rfl⟩
  · intro c dkvs rp hes hen hrp hb
    rw [gri_rds_case c _ (by rw [dictGetD_obj, hes]; rfl) (by rw [dictGetD_obj, hen]; rfl)]
    unfold Notifier.deleteDBInstanceBranch
    simp only [dictGetD_obj, exBindOk, hrp, Option.getD_some, dictGet, hb, Option.getD_none, exPure]
    exact ⟨_, _, rfl, rfl, rfl⟩
  · intro dkvs rp hes hen hrp hb
    rw [griG_iam_case _ (by rw [dictGetD_obj, hes]; rfl) (by rw [dictGetD_obj, hen]; rfl)]
    simp only [dictGetD_obj, exBindOk, hrp, Option.getD_some, dictGet, hb, Option.getD_none, exPure]
    exact ⟨_, _, rfl, rfl, rfl⟩

/-- Witness for C2 (amended): the S3 conjunct at the concrete
no-`bucketName` detail. -/
theorem c2_missing_field_null_witness :
    ∃ info calls, Notifier.get_resource_info failingClients s3NoBucketDetail = .ok (info, calls)
      ∧ info.resourceName = .null ∧ info.resourceId = .null :=
  c2_missing_field_null_amended.1 failingClients
    [("eventSource", .s "s3.amazonaws.com"), ("eventName", .s "DeleteBucket"),
     ("requestParameters", .obj []), ("awsRegion", .s "us-east-1")]
    [] (by rfl) (by rfl) (by rfl) (by rfl)

theorem deleteBucketBranch_type (c : AwsClients) (d : JVal) (r : ResourceDeletionInfo × List Call)
    (h : Notifier.deleteBucketBranch c d = .ok r) : r.1.resourceType = "S3 Bucket" := by
  unfold Notifier.deleteBucketBranch at h
  obtain ⟨rp, h1, h⟩ := bind_ok_ex h
  obtain ⟨bn, h2, h⟩ := bind_ok_ex h
  obtain ⟨rg, h3, h⟩ := bind_ok_ex h
  cases h
  rfl

theorem deleteDBInstanceBranch_type (c : AwsClients) (d : JVal) (r : ResourceDeletionInfo × List Call)
    (h : Notifier.deleteDBInstanceBranch c d = .ok r) : r.1.resourceType = "RDS Instance" := by
  unfold Notifier.deleteDBInstanceBranch at h
  obtain ⟨rp, h1, h⟩ := bind_ok_ex h
  obtain ⟨dbid, h2, h⟩ := bind_ok_ex h
  obtain ⟨rg, h3, h⟩ := bind_ok_ex h
  obtain ⟨sk, h4, h⟩ := bind_ok_ex h
  cases h
  rfl

theorem deleteFunctionBranch_type (c : AwsClients) (d : JVal) (r : ResourceDeletionInfo × List Call)
    (h : Notifier.deleteFunctionBranch c d = .ok r) : r.1.resourceType = "Lambda Function" := by
  unfold Notifier.deleteFunctionBranch at h
  obtain ⟨rp, h1, h⟩ := bind_ok_ex h
  obtain ⟨fn, h2, h⟩ := bind_ok_ex h
  obtain ⟨rg, h3, h⟩ := bind_ok_ex h
  cases h
  rfl

theorem deleteSecurityGroupBranch_type (c : AwsClients) (d : JVal) (r : ResourceDeletionInfo × List Call)
    (h : Notifier.deleteSecurityGroupBranch c d = .ok r) : r.1.resourceType = "Security Group" := by
  unfold Notifier.deleteSecurityGroupBranch at h
  obtain ⟨rp, h1, h⟩ := bind_ok_ex h
  obtain ⟨gn, h2, h⟩ := bind_ok_ex h
  obtain ⟨gid, h3, h⟩ := bind_ok_ex h
  obtain ⟨rg, h4, h⟩ := bind_ok_ex h
  cases h
  rfl

theorem deleteVpcBranch_type (c : AwsClients) (d : JVal) (r : ResourceDeletionInfo × List Call)
    (h : Notifier.deleteVpcBranch c d = .ok r) : r.1.resourceType = "VPC" := by
  unfold Notifier.deleteVpcBranch at h
  obtain ⟨rp, h1, h⟩ := bind_ok_ex h
  obtain ⟨vid, h2, h⟩ := bind_ok_ex h
  obtain ⟨rg, h3, h⟩ := bind_ok_ex h
  cases h
  rfl

theorem deleteLoadBalancerBranch_type (c : AwsClients) (d : JVal) (r : ResourceDeletionInfo × List Call)
    (h : Notifier.deleteLoadBalancerBranch c d = .ok r) : r.1.resourceType = "Elastic Load Balancer" := by
  unfold Notifier.deleteLoadBalancerBranch at h
  obtain ⟨rp, h1, h⟩ := bind_ok_ex h
  obtain ⟨lba, h2, h⟩ := bind_ok_ex h
  obtain ⟨rg, h3, h⟩ := bind_ok_ex h
  cases h
  rfl

theorem terminateInstancesBranch_type (c : AwsClients) (d : JVal) (r : ResourceDeletionInfo × List Call)
    (h : Notifier.terminateInstancesBranch c d = .ok r) :
    r.1.resourceType = "EC2 Instance" ∨ r.1.resourceType = "Unknown" := by
  unfold Notifier.terminateInstancesBranch at h
  obtain ⟨rp, h1, h⟩ := bind_ok_ex h
  obtain ⟨iset, h2, h⟩ := bind_ok_ex h
  obtain ⟨items, h3, h⟩ := bind_ok_ex h
  split at h
  · obtain ⟨i0, h4, h⟩ := bind_ok_ex h
    obtain ⟨iid, h5, h⟩ := bind_ok_ex h
    obtain ⟨rg, h6, h⟩ := bind_ok_ex h
    cases h
    left; rfl
  · cases h
    right; rfl

/-- An EC2 `TerminateInstances` detail whose `requestParameters` is an
empty object (so `instancesSet.items` defaults to an empty list). -/
def ec2EmptyItemsDetail : JVal :=
  .obj [("eventSource", .s "ec2.amazonaws.com"), ("eventName", .s "TerminateInstances"),
        ("requestParameters", .obj []), ("awsRegion", .s "us-east-1")]

/-- C1 counterexample: the supported pair
`ec2.amazonaws.com`/`TerminateInstances` with an empty
`requestParameters` (a shape the claim says is irrelevant) classifies
to the default record with `resourceType = "Unknown"`, not
`"EC2 Instance"`: the EC2 rule only fires when `instancesSet.items` is
non-empty. -/
theorem c1_exact_tag_cex :
    Notifier.get_resource_info failingClients ec2EmptyItemsDetail = .ok (defaultResourceInfo, [])
    ∧ defaultResourceInfo.resourceType ≠ "EC2 Instance" :=
  ⟨rfl, by decide⟩

/-- C1 (amended): for the seven unguarded pairs (S3 bucket, RDS
instance, Lambda function, security group, VPC, load balancer, IAM
user), whenever classification returns normally its `resourceType` is
exactly the tag defined for the pair, whatever the shape of
`requestParameters`; for `ec2/TerminateInstances` and
`route53/ChangeResourceRecordSets` the tag is produced only when the
branch's guard holds (non-empty `instancesSet.items`, first change
with action `DELETE`), and otherwise the type is `Unknown`. -/
theorem c1_exact_tag_amended :
    (∀ (c : AwsClients) (d : JVal) (r : ResourceDeletionInfo × List Call),
      dictGetD d "eventSource" (.s "") = .ok (.s "s3.amazonaws.com") →
      dictGetD d "eventName" (.s "") = .ok (.s "DeleteBucket") →
      Notifier.get_resource_info c d = .ok r → r.1.resourceType = "S3 Bucket")
    ∧ (∀ (c : AwsClients) (d : JVal) (r : ResourceDeletionInfo × List Call),
      dictGetD d "eventSource" (.s "") = .ok (.s "rds.amazonaws.com") →
      dictGetD d "eventName" (.s "") = .ok (.s "DeleteDBInstance") →
      Notifier.get_resource_info c d = .ok r → r.1.resourceType = "RDS Instance")
    ∧ (∀ (c : AwsClients) (d : JVal) (r : ResourceDeletionInfo × List Call),
      dictGetD d "eventSource" (.s "") = .ok (.s "lambda.amazonaws.com") →
      dictGetD d "eventName" (.s "") = .ok (.s "DeleteFunction20150331") →
      Notifier.get_resource_info c d = .ok r → r.1.resourceType = "Lambda Function")
    ∧ (∀ (c : AwsClients) (d : JVal) (r : ResourceDeletionInfo × List Call),
      dictGetD d "eventSource" (.s "") = .ok (.s "ec2.amazonaws.com") →
      dictGetD d "eventName" (.s "") = .ok (.s "DeleteSecurityGroup") →
      Notifier.get_resource_info c d = .ok r → r.1.resourceType = "Security Group")
    ∧ (∀ (c : AwsClients) (d : JVal) (r : ResourceDeletionInfo × List Call),
      dictGetD d "eventSource" (.s "") = .ok (.s "ec2.amazonaws.com") →
      dictGetD d "eventName" (.s "") = .ok (.s "DeleteVpc") →
      Notifier.get_resource_info c d = .ok r → r.1.resourceType = "VPC")
    ∧ (∀ (c : AwsClients) (d : JVal) (r : ResourceDeletionInfo × List Call),
      dictGetD d "eventSource" (.s "") = .ok (.s "elasticloadbalancing.amazonaws.com") →
      dictGetD d "eventName" (.s "") = .ok (.s "DeleteLoadBalancer") →
      Notifier.get_resource_info c d = .ok r → r.1.resourceType = "Elastic Load Balancer")
    ∧ (∀ (d : JVal) (r : ResourceDeletionInfo × List Call),
      dictGetD d "eventSource" (.s "") = .ok (.s "iam.amazonaws.com") →
      dictGetD d "eventName" (.s "") = .ok (.s "DeleteUser") →
      NotifierGlobal.get_resource_info d = .ok r → r.1.resourceType = "IAM User")
    ∧ (∀ (c : AwsClients) (d : JVal) (r : ResourceDeletionInfo × List Call),
      dictGetD d "eventSource" (.s "") = .ok (.s "ec2.amazonaws.com") →
      dictGetD d "eventName" (.s "") = .ok (.s "TerminateInstances") →
      Notifier.get_resource_info c d = .ok r →
      r.1.resourceType = "EC2 Instance" ∨ r.1.resourceType = "Unknown")
    ∧ (∀ (d : JVal) (r : ResourceDeletionInfo × List Call),
      dictGetD d "eventSource" (.s "") = .ok (.s "route53.amazonaws.com") →
      dictGetD d "eventName" (.s "") = .ok (.s "ChangeResourceRecordSets") →
      NotifierGlobal.get_resource_info d = .ok r →
      r.1.resourceType = "Route53 DNS Record" ∨ r.1.resourceType = "Unknown") := by
  refine ⟨?_, ?_, ?_, ?_, ?_, ?_, ?_, ?_, ?_⟩
  · intro c d r hes hen hok
    rw [gri_s3_case c d hes hen] at hok
    exact deleteBucketBranch_type c d r hok
  · intro c d r hes hen hok
    rw [gri_rds_case c d hes hen] at hok
    exact deleteDBInstanceBranch_type c d r hok
  · intro c d r hes hen hok
    rw [gri_lambda_case c d hes hen] at hok
    exact deleteFunctionBranch_type c d r hok
  · intro c d r hes hen hok
    rw [gri_sg_case c d hes hen] at hok
    exact deleteSecurityGroupBranch_type c d r hok
  · intro c d r hes hen hok
    rw [gri_vpc_case c d hes hen] at hok
    exact deleteVpcBranch_type c d r hok
  · intro c d r hes hen hok
    rw [gri_elb_case c d hes hen] at hok
    exact deleteLoadBalancerBranch_type c d r hok
  · intro d r hes hen hok
    rw [griG_iam_case d hes hen] at hok
    obtain ⟨rp, h1, hok⟩ := bind_ok_ex hok
    obtain ⟨un, h2, hok⟩ := bind_ok_ex hok
    obtain ⟨rg, h3, hok⟩ := bind_ok_ex hok
    cases hok
    rfl
  · intro c d r hes hen hok
    rw [gri_ec2terminate_case c d hes hen] at hok
    exact terminateInstancesBranch_type c d r hok
  · intro d r hes hen hok
    unfold NotifierGlobal.get_resource_info at hok
    rw [hes, exBindOk, hen, exBindOk] at hok
    simp only [JVal.eqStr, show ("route53.amazonaws.com" == "iam.amazonaws.com") = false by simp,
      Bool.false_and, Bool.false_eq_true, if_false,
      show ("route53.amazonaws.com" == "route53.amazonaws.com") = true by simp,
      show ("ChangeResourceRecordSets" == "ChangeResourceRecordSets") = true by simp,
      Bool.and_self, if_true] at hok
    obtain ⟨rp, h1, hok⟩ := bind_ok_ex hok
    obtain ⟨cb, h2, hok⟩ := bind_ok_ex hok
    obtain ⟨chs, h3, hok⟩ := bind_ok_ex hok
    split at hok
    · obtain ⟨ch0, h4, hok⟩ := bind_ok_ex hok
      obtain ⟨av, h5, hok⟩ := bind_ok_ex hok
      split at hok
      · obtain ⟨rs, h6, hok⟩ := bind_ok_ex hok
        obtain ⟨hz0, h7, hok⟩ := bind_ok_ex hok
        split at hok
        · split at hok
          · obtain ⟨hz, h8, hok⟩ := bind_ok_ex hok
            obtain ⟨nm, h9, hok⟩ := bind_ok_ex hok
            obtain ⟨ty, h10, hok⟩ := bind_ok_ex hok
            obtain ⟨rg, h11, hok⟩ := bind_ok_ex hok
            cases hok
            left; rfl
          · rw [exBindErr] at hok
            exact absurd hok (by simp)
        · obtain ⟨hz, h8, hok⟩ := bind_ok_ex hok
          obtain ⟨nm, h9, hok⟩ := bind_ok_ex hok
          obtain ⟨ty, h10, hok⟩ := bind_ok_ex hok
          obtain ⟨rg, h11, hok⟩ := bind_ok_ex hok
          cases hok
          left; rfl
      · cases hok
        right; rfl
    · cases hok
      right; rfl

/-- Witness for C1 (amended): the S3 conjunct applied to a concrete
bucket-deletion detail. -/
theorem c1_exact_tag_witness :
    ({ resourceType := "S3 Bucket", resourceName := .s "my-bucket", resourceId := .s "my-bucket",
       additionalInfo := [("region", .s "eu-west-1"),
         ("tags", .s "No tags found or bucket already deleted")] } : ResourceDeletionInfo).resourceType
      = "S3 Bucket" := by
  refine c1_exact_tag_amended.1 failingClients
    (.obj [("eventSource", .s "s3.amazonaws.com"), ("eventName", .s "DeleteBucket"),
           ("requestParameters", .obj [("bucketName", .s "my-bucket")]), ("awsRegion", .s "eu-west-1")])
    ({ resourceType := "S3 Bucket", resourceName := .s "my-bucket", resourceId := .s "my-bucket",
       additionalInfo := [("region", .s "eu-west-1"),
         ("tags", .s "No tags found or bucket already deleted")] }, [Call.tagLookup "s3"])
    (by rfl) (by rfl) (by rfl)

/-- A sample regional environment: every tag lookup raises, the
webhook secret resolves, delivery succeeds. -/
def sampleEnv : Env :=
  { clients := failingClients, secret := .ok "https://example.test/webhook", deliver := true }

/-- A sample global environment. -/
def sampleGEnv : GEnv :=
  { secret := .ok "https://example.test/webhook", deliver := true }

/-- C4 counterexample: an event whose `detail` is the number `42` —
so `detail` is present but `detail.eventSource` does not exist — makes
`"eventSource" not in event["detail"]` raise `TypeError`, and the
handler returns 500 through its top-level catch, not the 400 the claim
requires; no collaborator is called. -/
theorem c4_malformed_400_cex :
    (Notifier.lambda_handler sampleEnv (.obj [("detail", .i 42)])).1.statusCode = 500
    ∧ (Notifier.lambda_handler sampleEnv (.obj [("detail", .i 42)])).1.statusCode ≠ 400
    ∧ (Notifier.lambda_handler sampleEnv (.obj [("detail", .i 42)])).2 = [] :=
  ⟨rfl, by decide, rfl⟩

/-- C4 (amended): for an event object with no `detail` key, and for an
event whose `detail` is an object with no `eventSource` key, both
handlers return status 400 with no collaborator calls. (When `detail`
is present but is not an object, the membership test itself may raise,
in which case the handler returns 500 — still without any collaborator
call.) -/
theorem c4_malformed_400_amended :
    (∀ (env : Env) (kvs : List (String × JVal)), lookupJ kvs "detail" = none →
      Notifier.lambda_handler env (.obj kvs)
        = ({ statusCode := 400, body := "Not a valid CloudTrail event" }, []))
    ∧ (∀ (env : Env) (kvs dkvs : List (String × JVal)),
      lookupJ kvs "detail" = some (.obj dkvs) → lookupJ dkvs "eventSource" = none →
      Notifier.lambda_handler env (.obj kvs)
        = ({ statusCode := 400, body := "Not a valid CloudTrail event" }, []))
    ∧ (∀ (env : GEnv) (kvs : List (String × JVal)), lookupJ kvs "detail" = none →
      NotifierGlobal.lambda_handler env (.obj kvs)
        = ({ statusCode := 400, body := "Not a valid CloudTrail event" }, []))
    ∧ (∀ (env : GEnv) (kvs dkvs : List (String × JVal)),
      lookupJ kvs "detail" = some (.obj dkvs) → lookupJ dkvs "eventSource" = none →
      NotifierGlobal.lambda_handler env (.obj kvs)
        = ({ statusCode := 400, body := "Not a valid CloudTrail event" }, [])) := by
  have hvNone : ∀ (kvs : List (String × JVal)), lookupJ kvs "detail" = none →
      validCheck (.obj kvs) = .ok false := by
    intro kvs h
    unfold validCheck
    rw [pyContains_obj_of_lookup_none kvs "detail" h, exBindOk]
    rfl
  have hvNoES : ∀ (kvs dkvs : List (String × JVal)),
      lookupJ kvs "detail" = some (.obj dkvs) → lookupJ dkvs "eventSource" = none →
      validCheck (.obj kvs) = .ok false := by
    intro kvs dkvs h1 h2
    unfold validCheck
    rw [pyContains_obj_of_lookup kvs "detail" _ h1, exBindOk]
    simp only [Bool.true_eq_false, if_true, reduceIte]
    rw [pyGetItem_of_lookup kvs "detail" _ h1, exBindOk,
      pyContains_obj_of_lookup_none dkvs "eventSource" h2]
  refine ⟨?_, ?_, ?_, ?_⟩
  · intro env kvs h
    unfold Notifier.lambda_handler
    rw [hvNone kvs h]
  · intro env kvs dkvs h1 h2
    unfold Notifier.lambda_handler
    rw [hvNoES kvs dkvs h1 h2]
  · intro env kvs h
    unfold NotifierGlobal.lambda_handler
    rw [hvNone kvs h]
  · intro env kvs dkvs h1 h2
    unfold NotifierGlobal.lambda_handler
    rw [hvNoES kvs dkvs h1 h2]

/-- Witness for C4 (amended): a detail-less event and an
`eventSource`-less detail, on the regional handler. -/
theorem c4_malformed_400_witness :
    Notifier.lambda_handler sampleEnv (.obj [("source", .s "aws.ec2")])
      = ({ statusCode := 400, body := "Not a valid CloudTrail event" }, [])
    ∧ Notifier.lambda_handler sampleEnv (.obj [("detail", .obj [("eventName", .s "DeleteBucket")])])
      = ({ statusCode := 400, body := "Not a valid CloudTrail event" }, []) :=
  ⟨c4_malformed_400_amended.1 sampleEnv [("source", .s "aws.ec2")] (by rfl),
   c4_malformed_400_amended.2.1 sampleEnv [("detail", .obj [("eventName", .s "DeleteBucket")])]
     [("eventName", .s "DeleteBucket")] (by rfl) (by rfl)⟩

theorem deleteBucketBranch_calls (c : AwsClients) (d : JVal) (i : ResourceDeletionInfo)
    (cs : List Call) (h : Notifier.deleteBucketBranch c d = .ok (i, cs)) :
    cs = [Call.tagLookup "s3"] := by
  unfold Notifier.deleteBucketBranch at h
  obtain ⟨rp, h1, h⟩ := bind_ok_ex h
  obtain ⟨bn, h2, h⟩ := bind_ok_ex h
  obtain ⟨rg, h3, h⟩ := bind_ok_ex h
  cases h
  rfl

theorem deleteSecurityGroupBranch_calls (c : AwsClients) (d : JVal) (i : ResourceDeletionInfo)
    (cs : List Call) (h : Notifier.deleteSecurityGroupBranch c d = .ok (i, cs)) :
    cs = [Call.tagLookup "ec2"] := by
  unfold Notifier.deleteSecurityGroupBranch at h
  obtain ⟨rp, h1, h⟩ := bind_ok_ex h
  obtain ⟨gn, h2, h⟩ := bind_ok_ex h
  obtain ⟨gid, h3, h⟩ := bind_ok_ex h
  obtain ⟨rg, h4, h⟩ := bind_ok_ex h
  cases h
  rfl

theorem deleteVpcBranch_calls (c : AwsClients) (d : JVal) (i : ResourceDeletionInfo)
    (cs : List Call) (h : Notifier.deleteVpcBranch c d = .ok (i, cs)) :
    cs = [Call.tagLookup "ec2"] := by
  unfold Notifier.deleteVpcBranch at h
  obtain ⟨rp, h1, h⟩ := bind_ok_ex h
  obtain ⟨vid, h2, h⟩ := bind_ok_ex h
  obtain ⟨rg, h3, h⟩ := bind_ok_ex h
  cases h
  rfl

theorem terminateInstancesBranch_calls (c : AwsClients) (d : JVal) (i : ResourceDeletionInfo)
    (cs : List Call) (h : Notifier.terminateInstancesBranch c d = .ok (i, cs)) :
    cs = [Call.tagLookup "ec2"] ∨ cs = [] := by
  unfold Notifier.terminateInstancesBranch at h
  obtain ⟨rp, h1, h⟩ := bind_ok_ex h
  obtain ⟨iset, h2, h⟩ := bind_ok_ex h
  obtain ⟨items, h3, h⟩ := bind_ok_ex h
  split at h
  · obtain ⟨i0, h4, h⟩ := bind_ok_ex h
    obtain ⟨iid, h5, h⟩ := bind_ok_ex h
    obtain ⟨rg, h6, h⟩ := bind_ok_ex h
    cases h
    left; rfl
  · cases h
    right; rfl

theorem deleteDBInstanceBranch_calls (c : AwsClients) (d : JVal) (i : ResourceDeletionInfo)
    (cs : List Call) (h : Notifier.deleteDBInstanceBranch c d = .ok (i, cs)) :
    cs = [Call.tagLookup "rds"] ∨ cs = [] := by
  unfold Notifier.deleteDBInstanceBranch at h
  obtain ⟨rp, h1, h⟩ := bind_ok_ex h
  obtain ⟨dbid, h2, h⟩ := bind_ok_ex h
  obtain ⟨rg, h3, h⟩ := bind_ok_ex h
  obtain ⟨sk, h4, h⟩ := bind_ok_ex h
  cases h
  cases harn : (do
    let region0 ← dictGetD d "awsRegion" (.s "us-east-1")
    let ui ← dictGetD d "userIdentity" (.obj [])
    let acct ← dictGetD ui "accountId" (.s "")
    pure ("arn:aws:rds:" ++ pyStr region0 ++ ":" ++ pyStr acct ++ ":db:" ++ pyStr dbid) : Except String String) with
  | ok arn => left; simp [harn]
  | error e => right; simp [harn]

theorem deleteFunctionBranch_calls (c : AwsClients) (d : JVal) (i : ResourceDeletionInfo)
    (cs : List Call) (h : Notifier.deleteFunctionBranch c d = .ok (i, cs)) :
    cs = [Call.tagLookup "lambda"] ∨ cs = [] := by
  unfold Notifier.deleteFunctionBranch at h
  obtain ⟨rp, h1, h⟩ := bind_ok_ex h
  obtain ⟨fn, h2, h⟩ := bind_ok_ex h
  obtain ⟨rg, h3, h⟩ := bind_ok_ex h
  cases h
  cases harn : (do
    let region0 ← dictGetD d "awsRegion" (.s "us-east-1")
    let ui ← dictGetD d "userIdentity" (.obj [])
    let acct ← dictGetD ui "accountId" (.s "")
    pure ("arn:aws:lambda:" ++ pyStr region0 ++ ":" ++ pyStr acct ++ ":function:" ++ pyStr fn) : Except String String) with
  | ok arn => left; simp [harn]
  | error e => right; simp [harn]

theorem deleteLoadBalancerBranch_calls (c : AwsClients) (d : JVal) (i : ResourceDeletionInfo)
    (cs : List Call) (h : Notifier.deleteLoadBalancerBranch c d = .ok (i, cs)) :
    cs = [Call.tagLookup "elb"] ∨ cs = [] := by
  unfold Notifier.deleteLoadBalancerBranch at h
  obtain ⟨rp, h1, h⟩ := bind_ok_ex h
  obtain ⟨lba, h2, h⟩ := bind_ok_ex h
  obtain ⟨rg, h3, h⟩ := bind_ok_ex h
  cases h
  by_cases htr : lba.truthy = true
  · left; simp [htr]
  · right; simp [htr]

theorem gri_calls_tag_only (c : AwsClients) (d : JVal) (i : ResourceDeletionInfo)
    (cs : List Call) (h : Notifier.get_resource_info c d = .ok (i, cs)) :
    Call.webhookPost ∉ cs ∧ Call.getSecret ∉ cs := by
  unfold Notifier.get_resource_info at h
  obtain ⟨es, he1, h⟩ := bind_ok_ex h
  obtain ⟨en, he2, h⟩ := bind_ok_ex h
  split at h
  · rcases terminateInstancesBranch_calls c d i cs h with hc | hc <;> simp [hc]
  · split at h
    · have hc := deleteBucketBranch_calls c d i cs h
      simp [hc]
    · split at h
      · rcases deleteDBInstanceBranch_calls c d i cs h with hc | hc <;> simp [hc]
      · split at h
        · rcases deleteFunctionBranch_calls c d i cs h with hc | hc <;> simp [hc]
        · split at h
          · have hc := deleteSecurityGroupBranch_calls c d i cs h
            simp [hc]
          · split at h
            · have hc := deleteVpcBranch_calls c d i cs h
              simp [hc]
            · split at h
              · rcases deleteLoadBalancerBranch_calls c d i cs h with hc | hc <;> simp [hc]
              · cases h
                simp

/-- C7: if webhook-secret retrieval (`get_webhook_url`) raises, the
exception propagates to the handler's top-level catch: the handler
never returns 200 and never attempts webhook delivery, and on every
valid envelope whose classification returned normally it returns
exactly status 500 with the error in the body, having called only the
classifier's tag lookups and the secret read. -/
theorem c7_secret_failure_fatal :
    (∀ (env : Env) (ev : JVal) (e : String), env.secret = .error e →
      Call.webhookPost ∉ (Notifier.lambda_handler env ev).2
      ∧ (Notifier.lambda_handler env ev).1.statusCode ≠ 200)
    ∧ (∀ (env : Env) (ev d : JVal) (e : String) (i : ResourceDeletionInfo) (cs : List Call),
      env.secret = .error e → validCheck ev = .ok true → pyGetItem ev "detail" = .ok d →
      Notifier.get_resource_info env.clients d = .ok (i, cs) →
      Notifier.lambda_handler env ev
        = ({ statusCode := 500, body := "Error: " ++ e }, cs ++ [Call.getSecret])) := by
  constructor
  · intro env ev e hsec
    unfold Notifier.lambda_handler
    cases hv : validCheck ev with
    | error e' => simp
    | ok b =>
      cases b with
      | false => simp
      | true =>
        cases hgi : pyGetItem ev "detail" with
        | error e' => simp [hgi]
        | ok d =>
          cases hgr : Notifier.get_resource_info env.clients d with
          | error e' => simp [hgi, hgr]
          | ok p =>
            obtain ⟨i, cs⟩ := p
            obtain ⟨hpost, -⟩ := gri_calls_tag_only env.clients d i cs hgr
            simp [hgi, hgr, hsec, hpost]
  · intro env ev d e i cs hsec hv hgi hgr
    unfold Notifier.lambda_handler
    rw [hv]
    simp only [hgi, hgr, hsec]

/-- Witness for C7: a secret-read failure on a concrete S3 deletion
event yields exactly the 500 response with no delivery call. -/
theorem c7_secret_failure_fatal_witness :
    Notifier.lambda_handler
        { clients := failingClients, secret := .error "AccessDenied", deliver := true }
        (.obj [("detail", s3NoBucketDetail)])
      = ({ statusCode := 500, body := "Error: AccessDenied" },
         [Call.tagLookup "s3", Call.getSecret]) := by
  have h := c7_secret_failure_fatal.2
    { clients := failingClients, secret := .error "AccessDenied", deliver := true }
    (.obj [("detail", s3NoBucketDetail)]) s3NoBucketDetail "AccessDenied"
    ({ resourceType := "S3 Bucket", resourceName := .null, resourceId := .null,
       additionalInfo := [("region", .s "us-east-1"),
         ("tags", .s "No tags found or bucket already deleted")] })
    [Call.tagLookup "s3"]
    (by rfl) (by rfl) (by rfl) (by rfl)
  exact h

theorem userIdentity_type_ok (o : Option JVal) (h : userIdentityWF o = true) :
    ∃ ut, dictGetD (o.getD (.obj [])) "type" (.s "Unknown") = .ok ut := by
  cases o with
  | none => exact ⟨_, rfl⟩
  | some v =>
    cases v with
    | obj ukvs => exact ⟨_, rfl⟩
    | null => simp [userIdentityWF] at h
    | b x => simp [userIdentityWF] at h
    | i n => simp [userIdentityWF] at h
    | s x => simp [userIdentityWF] at h
    | arr xs => simp [userIdentityWF] at h

/-- C6: a valid envelope (per the section-3 data model: `detail` an
object, `eventSource` a string, `userIdentity` well-formed) whose
`(eventSource, eventName)` pair matches no regional rule classifies to
the default record — `resourceType`, `resourceName`, `resourceId` all
`Unknown`, empty `additionalInfo`, no tag-lookup call — and the
pipeline still runs: the handler reads the secret, renders, attempts
delivery, and returns 200 when delivery succeeds. -/
theorem c6_unmatched_default_delivered (env : Env) (url : String) (es : String)
    (kvs dkvs : List (String × JVal))
    (hsec : env.secret = .ok url) (hdel : env.deliver = true)
    (hd : lookupJ kvs "detail" = some (.obj dkvs))
    (hes : lookupJ dkvs "eventSource" = some (.s es))
    (hui : userIdentityWF (lookupJ dkvs "userIdentity") = true)
    (hnm : regionalMatches (.s es) ((lookupJ dkvs "eventName").getD (.s "")) = false) :
    Notifier.get_resource_info env.clients (.obj dkvs) = .ok (defaultResourceInfo, [])
    ∧ Notifier.lambda_handler env (.obj kvs)
        = ({ statusCode := 200, body := "Notification sent for Unknown deletion: Unknown" },
           [Call.getSecret, Call.webhookPost]) := by
  have hgr : Notifier.get_resource_info env.clients (.obj dkvs) = .ok (defaultResourceInfo, []) := by
    refine gri_unmatched env.clients (.obj dkvs) (.s es) ((lookupJ dkvs "eventName").getD (.s "")) ?_ ?_ hnm
    · rw [dictGetD_obj, hes]; rfl
    · rw [dictGetD_obj]
  refine ⟨hgr, ?_⟩
  have hv : validCheck (.obj kvs) = .ok true := by
    unfold validCheck
    rw [pyContains_obj_of_lookup kvs "detail" _ hd, exBindOk]
    simp only [reduceIte]
    rw [pyGetItem_of_lookup kvs "detail" _ hd, exBindOk,
      pyContains_obj_of_lookup dkvs "eventSource" _ hes]
  have hgi : pyGetItem (.obj kvs) "detail" = .ok (.obj dkvs) := pyGetItem_of_lookup kvs "detail" _ hd
  have hesWF : eventSourceStrWF (lookupJ dkvs "eventSource") = true := by rw [hes]; rfl
  obtain ⟨ut, hut⟩ := userIdentity_type_ok _ hui
  obtain ⟨un, hun⟩ := resolveUserName_ok ut _ hui
  have hcm := create_ok_with Notifier.get_service_icon kvs dkvs "Unknown" "Unknown"
    (.s "Unknown") [] ut un hd hesWF hut hun
  have hcm' : ∃ m, Notifier.create_teams_message (.obj kvs) defaultResourceInfo = .ok m :=
    ⟨_, hcm⟩
  obtain ⟨m, hm⟩ := hcm'
  unfold Notifier.lambda_handler
  rw [hv]
  simp only [hgi, hgr, hsec, hm, hdel]
  rfl

/-- The spec scenario event: `eventSource = "unknown.amazonaws.com"`,
matching no rule. -/
def unknownSourceEvent : JVal :=
  .obj [("detail", .obj
    [("eventSource", .s "unknown.amazonaws.com"), ("eventName", .s "DeleteWidget"),
     ("eventTime", .s "2024-01-02T03:04:05Z"), ("awsRegion", .s "us-east-1"),
     ("userIdentity", .obj [("type", .s "IAMUser"), ("userName", .s "alice")])])]

/-- Witness for C6: the concrete `unknown.amazonaws.com` scenario is
classified `Unknown` and still delivered with status 200. -/
theorem c6_unmatched_default_delivered_witness :
    Notifier.get_resource_info sampleEnv.clients
        (.obj [("eventSource", .s "unknown.amazonaws.com"), ("eventName", .s "DeleteWidget"),
               ("eventTime", .s "2024-01-02T03:04:05Z"), ("awsRegion", .s "us-east-1"),
               ("userIdentity", .obj [("type", .s "IAMUser"), ("userName", .s "alice")])])
      = .ok (defaultResourceInfo, [])
    ∧ Notifier.lambda_handler sampleEnv unknownSourceEvent
        = ({ statusCode := 200, body := "Notification sent for Unknown deletion: Unknown" },
           [Call.getSecret, Call.webhookPost]) :=
  c6_unmatched_default_delivered sampleEnv "https://example.test/webhook" "unknown.amazonaws.com"
    [("detail", .obj
      [("eventSource", .s "unknown.amazonaws.com"), ("eventName", .s "DeleteWidget"),
       ("eventTime", .s "2024-01-02T03:04:05Z"), ("awsRegion", .s "us-east-1"),
       ("userIdentity", .obj [("type", .s "IAMUser"), ("userName", .s "alice")])])]
    [("eventSource", .s "unknown.amazonaws.com"), ("eventName", .s "DeleteWidget"),
     ("eventTime", .s "2024-01-02T03:04:05Z"), ("awsRegion", .s "us-east-1"),
     ("userIdentity", .obj [("type", .s "IAMUser"), ("userName", .s "alice")])]
    (by rfl) (by rfl) (by rfl) (by rfl) (by rfl) (by rfl)

theorem createWith_contains (icon : String → String) (kvs dkvs : List (String × JVal))
    (rid rt : String) (rn : JVal) (ai : List (String × JVal)) (ut un : JVal)
    (hd : lookupJ kvs "detail" = some (.obj dkvs))
    (hes : eventSourceStrWF (lookupJ dkvs "eventSource") = true)
    (hut : dictGetD ((lookupJ dkvs "userIdentity").getD (.obj [])) "type" (.s "Unknown") = .ok ut)
    (hun : resolveUserName ut ((lookupJ dkvs "userIdentity").getD (.obj [])) = .ok un) :
    ∃ m, create_teams_message_with icon (.obj kvs)
        { resourceType := rt, resourceName := rn, resourceId := .s rid, additionalInfo := ai }
      = .ok m
      ∧ StrHasSub m.text (String.mk (rid.toList.take 22))
      ∧ StrHasSub m.text (pyStr un)
      ∧ StrHasSub m.text (pyStr ((lookupJ dkvs "awsRegion").getD (.s "Unknown")))
      ∧ StrHasSub m.text (pyStr rn)
      ∧ StrHasSub m.text (pyStr ut)
      ∧ (∀ t : String, (lookupJ dkvs "eventTime").getD (.s "Unknown") = .s t → parseTs t = none →
          StrHasSub m.text t) := by
  refine ⟨_, create_ok_with icon kvs dkvs rid rt rn ai ut un hd hes hut hun, ?_, ?_, ?_, ?_, ?_, ?_⟩
  · exact strHasSub_append_right _ (strHasSub_of_mem (by simp [cardTextPieces]))
  · exact strHasSub_append_right _ (strHasSub_of_mem (by simp [cardTextPieces]))
  · exact strHasSub_append_right _ (strHasSub_of_mem (by simp [cardTextPieces]))
  · exact strHasSub_append_right _ (strHasSub_of_mem (by simp [cardTextPieces]))
  · exact strHasSub_append_right _ (strHasSub_of_mem (by simp [cardTextPieces]))
  · intro t ht hp
    rw [ht]
    simp only [formatEventTime, hp]
    exact strHasSub_append_right _ (strHasSub_of_mem (by simp [cardTextPieces, pyStr]))

/-- The record the regional classifier produces for an S3 deletion
with no `bucketName` (both identifying fields are Python `None`). -/
def s3NullInfo : ResourceDeletionInfo :=
  { resourceType := "S3 Bucket", resourceName := .null, resourceId := .null,
    additionalInfo := [("region", .s "us-east-1"),
      ("tags", .s "No tags found or bucket already deleted")] }

/-- C9 counterexample: rendering can fail. The record produced by
classification for an S3 deletion with no `bucketName` has
`resourceId = None`, and `resource_info["resourceId"][:22]` raises
`TypeError` in `create_teams_message` instead of returning a document. -/
theorem c9_render_never_fails_cex :
    Notifier.get_resource_info failingClients s3NoBucketDetail
      = .ok (s3NullInfo, [Call.tagLookup "s3"])
    ∧ Notifier.create_teams_message (.obj [("detail", s3NoBucketDetail)]) s3NullInfo
      = .error "TypeError" :=
  ⟨rfl, rfl⟩

/-- C9 (amended): rendering never fails *provided* `resourceId` is a
string: for every record with a string `resourceId` and every
envelope well-formed per the section-3 data model (`detail` an
object, `eventSource` a string or absent, `userIdentity` well-formed
— equivalently, the identity-resolution rules IAMUser → `userName`,
AssumedRole → `sessionContext.sessionIssuer.userName`, Root →
`"Root User"`, otherwise `"Unknown"` return normally), both modules'
`create_teams_message` return a document whose body contains the
first 22 characters of `resourceId`, the resolved user name, the
region, the resource name and the user type, and an `eventTime` that
does not parse as `YYYY-MM-DDTHH:MM:SSZ` is passed through raw.  When
`resourceId` is the `None` produced for a missing identifying field,
rendering raises instead (see the counterexample). -/
theorem c9_render_total_amended :
    (∀ (kvs dkvs : List (String × JVal)) (rid rt : String) (rn : JVal)
        (ai : List (String × JVal)) (ut un : JVal),
      lookupJ kvs "detail" = some (.obj dkvs) →
      eventSourceStrWF (lookupJ dkvs "eventSource") = true →
      dictGetD ((lookupJ dkvs "userIdentity").getD (.obj [])) "type" (.s "Unknown") = .ok ut →
      resolveUserName ut ((lookupJ dkvs "userIdentity").getD (.obj [])) = .ok un →
      ∃ m, Notifier.create_teams_message (.obj kvs)
          { resourceType := rt, resourceName := rn, resourceId := .s rid, additionalInfo := ai }
        = .ok m
        ∧ StrHasSub m.text (String.mk (rid.toList.take 22))
        ∧ StrHasSub m.text (pyStr un)
        ∧ StrHasSub m.text (pyStr ((lookupJ dkvs "awsRegion").getD (.s "Unknown")))
        ∧ StrHasSub m.text (pyStr rn)
        ∧ StrHasSub m.text (pyStr ut)
        ∧ (∀ t : String, (lookupJ dkvs "eventTime").getD (.s "Unknown") = .s t →
            parseTs t = none → StrHasSub m.text t))
    ∧ (∀ (kvs dkvs : List (String × JVal)) (rid rt : String) (rn : JVal)
        (ai : List (String × JVal)) (ut un : JVal),
      lookupJ kvs "detail" = some (.obj dkvs) →
      eventSourceStrWF (lookupJ dkvs "eventSource") = true →
      dictGetD ((lookupJ dkvs "userIdentity").getD (.obj [])) "type" (.s "Unknown") = .ok ut →
      resolveUserName ut ((lookupJ dkvs "userIdentity").getD (.obj [])) = .ok un →
      ∃ m, NotifierGlobal.create_teams_message (.obj kvs)
          { resourceType := rt, resourceName := rn, resourceId := .s rid, additionalInfo := ai }
        = .ok m
        ∧ StrHasSub m.text (String.mk (rid.toList.take 22))
        ∧ StrHasSub m.text (pyStr un)
        ∧ StrHasSub m.text (pyStr ((lookupJ dkvs "awsRegion").getD (.s "Unknown")))
        ∧ StrHasSub m.text (pyStr rn)
        ∧ StrHasSub m.text (pyStr ut)
        ∧ (∀ t : String, (lookupJ dkvs "eventTime").getD (.s "Unknown") = .s t →
            parseTs t = none → StrHasSub m.text t)) :=
  ⟨fun kvs dkvs rid rt rn ai ut un hd hes hut hun =>
    createWith_contains Notifier.get_service_icon kvs dkvs rid rt rn ai ut un hd hes hut hun,
   fun kvs dkvs rid rt rn ai ut un hd hes hut hun =>
    createWith_contains NotifierGlobal.get_service_icon kvs dkvs rid rt rn ai ut un hd hes hut hun⟩

/-- Witness for C9 (amended): a concrete RDS record and envelope with
an unparseable timestamp. -/
theorem c9_render_total_witness :
    ∃ m, Notifier.create_teams_message
        (.obj [("detail", .obj
          [("eventSource", .s "rds.amazonaws.com"), ("eventTime", .s "not-a-time"),
           ("awsRegion", .s "eu-west-1"),
           ("userIdentity", .obj [("type", .s "IAMUser"), ("userName", .s "alice")])])])
        { resourceType := "RDS Instance", resourceName := .s "mydb", resourceId := .s "mydb",
          additionalInfo := [("region", .s "eu-west-1")] }
      = .ok m
      ∧ StrHasSub m.text (String.mk ("mydb".toList.take 22))
      ∧ StrHasSub m.text (pyStr (.s "alice"))
      ∧ StrHasSub m.text (pyStr (.s "eu-west-1"))
      ∧ StrHasSub m.text (pyStr (.s "mydb"))
      ∧ StrHasSub m.text (pyStr (.s "IAMUser"))
      ∧ StrHasSub m.text "not-a-time" := by
  obtain ⟨m, hok, h1, h2, h3, h4, h5, h6⟩ := c9_render_total_amended.1
    [("detail", .obj
      [("eventSource", .s "rds.amazonaws.com"), ("eventTime", .s "not-a-time"),
       ("awsRegion", .s "eu-west-1"),
       ("userIdentity", .obj [("type", .s "IAMUser"), ("userName", .s "alice")])])]
    [("eventSource", .s "rds.amazonaws.com"), ("eventTime", .s "not-a-time"),
     ("awsRegion", .s "eu-west-1"),
     ("userIdentity", .obj [("type", .s "IAMUser"), ("userName", .s "alice")])]
    "mydb" "RDS Instance" (.s "mydb") [("region", .s "eu-west-1")]
    (.s "IAMUser") (.s "alice")
    (by rfl) (by rfl) (by rfl) (by rfl)
  exact ⟨m, hok, h1, h2, h3, h4, h5, h6 "not-a-time" (by rfl) (by rfl)⟩

/-- The oracle-independent skeleton of a classification result: the
resource type, the resource id, and the collaborator calls made. -/
def griProj (p : ResourceDeletionInfo × List Call) : String × JVal × List Call :=
  (p.1.resourceType, p.1.resourceId, p.2)

theorem terminateInstancesBranch_proj (c₁ c₂ : AwsClients) (d : JVal) :
    (Notifier.terminateInstancesBranch c₁ d).map griProj
      = (Notifier.terminateInstancesBranch c₂ d).map griProj := by
  unfold Notifier.terminateInstancesBranch
  refine bindMapCongr _ _ _ _ (fun rp => ?_)
  refine bindMapCongr _ _ _ _ (fun iset => ?_)
  refine bindMapCongr _ _ _ _ (fun items => ?_)
  rcases hb : items.truthy <;> simp only [hb, Bool.false_eq_true, if_false, if_true]
  case true =>
    refine bindMapCongr _ _ _ _ (fun i0 => ?_)
    refine bindMapCongr _ _ _ _ (fun iid => ?_)
    refine bindMapCongr _ _ _ _ (fun rg => ?_)
    rfl

theorem deleteBucketBranch_proj (c₁ c₂ : AwsClients) (d : JVal) :
    (Notifier.deleteBucketBranch c₁ d).map griProj
      = (Notifier.deleteBucketBranch c₂ d).map griProj := by
  unfold Notifier.deleteBucketBranch
  refine bindMapCongr _ _ _ _ (fun rp => ?_)
  refine bindMapCongr _ _ _ _ (fun bn => ?_)
  refine bindMapCongr _ _ _ _ (fun rg => ?_)
  rfl

theorem deleteDBInstanceBranch_proj (c₁ c₂ : AwsClients) (d : JVal) :
    (Notifier.deleteDBInstanceBranch c₁ d).map griProj
      = (Notifier.deleteDBInstanceBranch c₂ d).map griProj := by
  unfold Notifier.deleteDBInstanceBranch
  refine bindMapCongr _ _ _ _ (fun rp => ?_)
  refine bindMapCongr _ _ _ _ (fun dbid => ?_)
  refine bindMapCongr _ _ _ _ (fun rg => ?_)
  refine bindMapCongr _ _ _ _ (fun sk => ?_)
  rfl

theorem deleteFunctionBranch_proj (c₁ c₂ : AwsClients) (d : JVal) :
    (Notifier.deleteFunctionBranch c₁ d).map griProj
      = (Notifier.deleteFunctionBranch c₂ d).map griProj := by
  unfold Notifier.deleteFunctionBranch
  refine bindMapCongr _ _ _ _ (fun rp => ?_)
  refine bindMapCongr _ _ _ _ (fun fn => ?_)
  refine bindMapCongr _ _ _ _ (fun rg => ?_)
  rfl

theorem deleteSecurityGroupBranch_proj (c₁ c₂ : AwsClients) (d : JVal) :
    (Notifier.deleteSecurityGroupBranch c₁ d).map griProj
      = (Notifier.deleteSecurityGroupBranch c₂ d).map griProj := by
  unfold Notifier.deleteSecurityGroupBranch
  refine bindMapCongr _ _ _ _ (fun rp => ?_)
  refine bindMapCongr _ _ _ _ (fun gn => ?_)
  refine bindMapCongr _ _ _ _ (fun gid => ?_)
  refine bindMapCongr _ _ _ _ (fun rg => ?_)
  rfl

theorem deleteVpcBranch_proj (c₁ c₂ : AwsClients) (d : JVal) :
    (Notifier.deleteVpcBranch c₁ d).map griProj
      = (Notifier.deleteVpcBranch c₂ d).map griProj := by
  unfold Notifier.deleteVpcBranch
  refine bindMapCongr _ _ _ _ (fun rp => ?_)
  refine bindMapCongr _ _ _ _ (fun vid => ?_)
  refine bindMapCongr _ _ _ _ (fun rg => ?_)
  rfl

theorem deleteLoadBalancerBranch_proj (c₁ c₂ : AwsClients) (d : JVal) :
    (Notifier.deleteLoadBalancerBranch c₁ d).map griProj
      = (Notifier.deleteLoadBalancerBranch c₂ d).map griProj := by
  unfold Notifier.deleteLoadBalancerBranch
  refine bindMapCongr _ _ _ _ (fun rp => ?_)
  refine bindMapCongr _ _ _ _ (fun lba => ?_)
  refine bindMapCongr _ _ _ _ (fun rg => ?_)
  rfl

/-- Success/failure, the resource type, the resource id and the call
trace of the regional classifier do not depend on the tag-lookup
oracles: any client set projects like the always-raising one. -/
theorem gri_proj_indep (c : AwsClients) (d : JVal) :
    (Notifier.get_resource_info c d).map griProj
      = (Notifier.get_resource_info failingClients d).map griProj := by
  unfold Notifier.get_resource_info
  refine bindMapCongr _ _ _ _ (fun es => ?_)
  refine bindMapCongr _ _ _ _ (fun en => ?_)
  rcases h1 : (es.eqStr "ec2.amazonaws.com" && en.eqStr "TerminateInstances")
    <;> simp only [h1, Bool.false_eq_true, if_false, if_true]
  case true => exact terminateInstancesBranch_proj c failingClients d
  rcases h2 : (es.eqStr "s3.amazonaws.com" && en.eqStr "DeleteBucket")
    <;> simp only [h2, Bool.false_eq_true, if_false, if_true]
  case true => exact deleteBucketBranch_proj c failingClients d
  rcases h3 : (es.eqStr "rds.amazonaws.com" && en.eqStr "DeleteDBInstance")
    <;> simp only [h3, Bool.false_eq_true, if_false, if_true]
  case true => exact deleteDBInstanceBranch_proj c failingClients d
  rcases h4 : (es.eqStr "lambda.amazonaws.com" && en.eqStr "DeleteFunction20150331")
    <;> simp only [h4, Bool.false_eq_true, if_false, if_true]
  case true => exact deleteFunctionBranch_proj c failingClients d
  rcases h5 : (es.eqStr "ec2.amazonaws.com" && en.eqStr "DeleteSecurityGroup")
    <;> simp only [h5, Bool.false_eq_true, if_false, if_true]
  case true => exact deleteSecurityGroupBranch_proj c failingClients d
  rcases h6 : (es.eqStr "ec2.amazonaws.com" && en.eqStr "DeleteVpc")
    <;> simp only [h6, Bool.false_eq_true, if_false, if_true]
  case true => exact deleteVpcBranch_proj c failingClients d
  rcases h7 : (es.eqStr "elasticloadbalancing.amazonaws.com" && en.eqStr "DeleteLoadBalancer")
    <;> simp only [h7, Bool.false_eq_true, if_false, if_true]
  case true => exact deleteLoadBalancerBranch_proj c failingClients d

/-- Did an `Except` computation return normally? -/
def exIsOk {α : Type} : Except String α → Bool
| .ok _ => true
| .error _ => false

theorem bindIsOkCongr {α β : Type} (m : Except String α) (f g : α → Except String β)
    (h : ∀ a, exIsOk (f a) = exIsOk (g a)) : exIsOk (m >>= f) = exIsOk (m >>= g) := by
  cases m with
  | error e => rfl
  | ok a => exact h a

/-- Whether rendering raises depends only on the event and on
`resourceId` — not on the icon table, the resource type, the resource
name or the additional info. -/
theorem create_isOk_congr (icon₁ icon₂ : String → String) (ev : JVal)
    (i₁ i₂ : ResourceDeletionInfo) (hid : i₁.resourceId = i₂.resourceId) :
    exIsOk (create_teams_message_with icon₁ ev i₁)
      = exIsOk (create_teams_message_with icon₂ ev i₂) := by
  unfold create_teams_message_with
  refine bindIsOkCongr _ _ _ (fun detail => ?_)
  refine bindIsOkCongr _ _ _ (fun et => ?_)
  refine bindIsOkCongr _ _ _ (fun rg => ?_)
  refine bindIsOkCongr _ _ _ (fun esv => ?_)
  refine bindIsOkCongr _ _ _ (fun es0 => ?_)
  refine bindIsOkCongr _ _ _ (fun ui => ?_)
  refine bindIsOkCongr _ _ _ (fun ut => ?_)
  refine bindIsOkCongr _ _ _ (fun un => ?_)
  rw [hid]
  refine bindIsOkCongr _ _ _ (fun r22 => ?_)
  rfl

/-- The regional handler's status code and collaborator-call trace do
not depend on the tag-lookup oracles. -/
theorem handler_oracle_indep (env : Env) (ev : JVal) :
    (Notifier.lambda_handler env ev).1.statusCode
      = (Notifier.lambda_handler { env with clients := failingClients } ev).1.statusCode
    ∧ (Notifier.lambda_handler env ev).2
      = (Notifier.lambda_handler { env with clients := failingClients } ev).2 := by
  have hproj := gri_proj_indep env.clients ev
  unfold Notifier.lambda_handler
  cases hv : validCheck ev with
  | error e => simp
  | ok b =>
    cases b with
    | false => simp
    | true =>
      cases hgi : pyGetItem ev "detail" with
      | error e => simp [hgi]
      | ok d =>
        have hproj := gri_proj_indep env.clients d
        cases hgr1 : Notifier.get_resource_info env.clients d with
        | error e₁ =>
          cases hgr2 : Notifier.get_resource_info failingClients d with
          | error e₂ =>
            rw [hgr1, hgr2] at hproj
            simp only [exMapErr] at hproj
            cases hproj
            simp [hgi, hgr1, hgr2]
          | ok p₂ =>
            rw [hgr1, hgr2] at hproj
            simp [exMapErr, exMapOk] at hproj
        | ok p₁ =>
          cases hgr2 : Notifier.get_resource_info failingClients d with
          | error e₂ =>
            rw [hgr1, hgr2] at hproj
            simp [exMapErr, exMapOk] at hproj
          | ok p₂ =>
            rw [hgr1, hgr2] at hproj
            simp only [exMapOk, Except.ok.injEq] at hproj
            obtain ⟨i₁, cs₁⟩ := p₁
            obtain ⟨i₂, cs₂⟩ := p₂
            simp only [griProj, Prod.mk.injEq] at hproj
            obtain ⟨-, hid, hcs⟩ := hproj
            cases hsec : env.secret with
            | error e => simp [hgi, hgr1, hgr2, hsec, hcs]
            | ok url =>
              have hok := create_isOk_congr Notifier.get_service_icon Notifier.get_service_icon
                ev i₁ i₂ hid
              cases hc1 : Notifier.create_teams_message ev i₁ with
              | error e₁ =>
                cases hc2 : Notifier.create_teams_message ev i₂ with
                | error e₂ => simp [hgi, hgr1, hgr2, hsec, hc1, hc2, hcs]
                | ok m₂ =>
                  rw [show Notifier.create_teams_message ev i₁ = create_teams_message_with Notifier.get_service_icon ev i₁ from rfl] at hc1
                  rw [show Notifier.create_teams_message ev i₂ = create_teams_message_with Notifier.get_service_icon ev i₂ from rfl] at hc2
                  rw [hc1, hc2] at hok
                  simp [exIsOk] at hok
              | ok m₁ =>
                cases hc2 : Notifier.create_teams_message ev i₂ with
                | error e₂ =>
                  rw [show Notifier.create_teams_message ev i₁ = create_teams_message_with Notifier.get_service_icon ev i₁ from rfl] at hc1
                  rw [show Notifier.create_teams_message ev i₂ = create_teams_message_with Notifier.get_service_icon ev i₂ from rfl] at hc2
                  rw [hc1, hc2] at hok
                  simp [exIsOk] at hok
                | ok m₂ =>
                  cases hdel : env.deliver <;>
                    simp [hgi, hgr1, hgr2, hsec, hc1, hc2, hcs, hdel]

/-- The placeholder strings the rules store under `tags` when the
lookup found nothing or raised. -/
def tagPlaceholders : List JVal :=
  [.s "No tags found",
   .s "No tags found or bucket already deleted",
   .s "No tags found or instance already deleted",
   .s "No tags found or function already deleted",
   .s "No tags found or security group already deleted",
   .s "No tags found or VPC already deleted",
   .s "No tags found or load balancer already deleted"]

/-- Under the always-raising clients, every `tags` entry of a
classification result is one of the placeholder strings. -/
theorem gri_failing_tags_placeholder (d : JVal) (i : ResourceDeletionInfo) (cs : List Call)
    (h : Notifier.get_resource_info failingClients d = .ok (i, cs)) :
    ∀ v, ("tags", v) ∈ i.additionalInfo → v ∈ tagPlaceholders := by
  unfold Notifier.get_resource_info at h
  obtain ⟨es, he1, h⟩ := bind_ok_ex h
  obtain ⟨en, he2, h⟩ := bind_ok_ex h
  split at h
  · unfold Notifier.terminateInstancesBranch at h
    obtain ⟨rp, h1, h⟩ := bind_ok_ex h
    obtain ⟨iset, h2, h⟩ := bind_ok_ex h
    obtain ⟨items, h3, h⟩ := bind_ok_ex h
    split at h
    · obtain ⟨i0, h4, h⟩ := bind_ok_ex h
      obtain ⟨iid, h5, h⟩ := bind_ok_ex h
      obtain ⟨rg, h6, h⟩ := bind_ok_ex h
      cases h
      intro v hv
      simp [failingClients, tagsOrElse] at hv
      simp [hv, tagPlaceholders]
    · cases h
      intro v hv
      simp [defaultResourceInfo] at hv
  · split at h
    · unfold Notifier.deleteBucketBranch at h
      obtain ⟨rp, h1, h⟩ := bind_ok_ex h
      obtain ⟨bn, h2, h⟩ := bind_ok_ex h
      obtain ⟨rg, h3, h⟩ := bind_ok_ex h
      cases h
      intro v hv
      simp [failingClients, tagsOrElse] at hv
      simp [hv, tagPlaceholders]
    · split at h
      · unfold Notifier.deleteDBInstanceBranch at h
        obtain ⟨rp, h1, h⟩ := bind_ok_ex h
        obtain ⟨dbid, h2, h⟩ := bind_ok_ex h
        obtain ⟨rg, h3, h⟩ := bind_ok_ex h
        obtain ⟨sk, h4, h⟩ := bind_ok_ex h
        cases h
        intro v hv
        cases harn : (do
          let region0 ← dictGetD d "awsRegion" (.s "us-east-1")
          let ui ← dictGetD d "userIdentity" (.obj [])
          let acct ← dictGetD ui "accountId" (.s "")
          pure ("arn:aws:rds:" ++ pyStr region0 ++ ":" ++ pyStr acct ++ ":db:" ++ pyStr dbid) : Except String String) with
        | ok arn =>
          rw [harn] at hv
          simp [failingClients, tagsOrElse] at hv
          simp [hv, tagPlaceholders]
        | error e =>
          rw [harn] at hv
          simp [tagsOrElse] at hv
          simp [hv, tagPlaceholders]
      · split at h
        · unfold Notifier.deleteFunctionBranch at h
          obtain ⟨rp, h1, h⟩ := bind_ok_ex h
          obtain ⟨fn, h2, h⟩ := bind_ok_ex h
          obtain ⟨rg, h3, h⟩ := bind_ok_ex h
          cases h
          intro v hv
          cases harn : (do
            let region0 ← dictGetD d "awsRegion" (.s "us-east-1")
            let ui ← dictGetD d "userIdentity" (.obj [])
            let acct ← dictGetD ui "accountId" (.s "")
            pure ("arn:aws:lambda:" ++ pyStr region0 ++ ":" ++ pyStr acct ++ ":function:" ++ pyStr fn) : Except String String) with
          | ok arn =>
            rw [harn] at hv
            simp [failingClients, tagsOrElse] at hv
            simp [hv, tagPlaceholders]
          | error e =>
            rw [harn] at hv
            simp [tagsOrElse] at hv
            simp [hv, tagPlaceholders]
        · split at h
          · unfold Notifier.deleteSecurityGroupBranch at h
            obtain ⟨rp, h1, h⟩ := bind_ok_ex h
            obtain ⟨gn, h2, h⟩ := bind_ok_ex h
            obtain ⟨gid, h3, h⟩ := bind_ok_ex h
            obtain ⟨rg, h4, h⟩ := bind_ok_ex h
            cases h
            intro v hv
            simp [failingClients, tagsOrElse] at hv
            simp [hv, tagPlaceholders]
          · split at h
            · unfold Notifier.deleteVpcBranch at h
              obtain ⟨rp, h1, h⟩ := bind_ok_ex h
              obtain ⟨vid, h2, h⟩ := bind_ok_ex h
              obtain ⟨rg, h3, h⟩ := bind_ok_ex h
              cases h
              intro v hv
              simp [failingClients, tagsOrElse] at hv
              simp [hv, tagPlaceholders]
            · split at h
              · unfold Notifier.deleteLoadBalancerBranch at h
                obtain ⟨rp, h1, h⟩ := bind_ok_ex h
                obtain ⟨lba, h2, h⟩ := bind_ok_ex h
                obtain ⟨rg, h3, h⟩ := bind_ok_ex h
                cases h
                intro v hv
                by_cases htr : lba.truthy = true
                · simp [htr, failingClients, tagsOrElse] at hv
                  simp [hv, tagPlaceholders]
                · simp [htr, tagsOrElse] at hv
                  simp [hv, tagPlaceholders]
              · cases h
                intro v hv
                simp [defaultResourceInfo] at hv

/-- C5: tag lookup is best-effort. (i) Replacing the tag-lookup
clients by ones that always raise never changes whether classification
returns normally, nor the resource type, resource id or call trace it
produces (so a lookup failure never aborts classification and no
exception propagates from `get_resource_info` because of it);
(ii) when every lookup raises, each `tags` entry of the result is one
of the placeholder strings (`No tags found` for EC2 instances, a
resource-specific variant for the other types); (iii) the handler's
status code and collaborator-call trace are likewise unchanged by
raising lookups, so the overall outcome is still success whenever it
is success with working lookups and delivery succeeds. -/
theorem c5_tag_lookup_best_effort :
    (∀ (c : AwsClients) (d : JVal),
      (Notifier.get_resource_info c d).map griProj
        = (Notifier.get_resource_info failingClients d).map griProj)
    ∧ (∀ (d : JVal) (i : ResourceDeletionInfo) (cs : List Call),
      Notifier.get_resource_info failingClients d = .ok (i, cs) →
      ∀ v, ("tags", v) ∈ i.additionalInfo → v ∈ tagPlaceholders)
    ∧ (∀ (env : Env) (ev : JVal),
      (Notifier.lambda_handler env ev).1.statusCode
        = (Notifier.lambda_handler { env with clients := failingClients } ev).1.statusCode
      ∧ (Notifier.lambda_handler env ev).2
        = (Notifier.lambda_handler { env with clients := failingClients } ev).2) :=
  ⟨gri_proj_indep, gri_failing_tags_placeholder, handler_oracle_indep⟩

/-- Witness for C5: for a concrete S3 deletion under always-raising
clients, the `tags` entry is the S3 placeholder string. -/
theorem c5_tag_lookup_best_effort_witness :
    (JVal.s "No tags found or bucket already deleted") ∈ tagPlaceholders :=
  c5_tag_lookup_best_effort.2.1 s3NoBucketDetail s3NullInfo [Call.tagLookup "s3"] (by rfl)
    (.s "No tags found or bucket already deleted") (by simp [s3NullInfo])
